import Mathlib

/-!
# Workflow execution engine — shallow embedding and verification

A shallow embedding of the workflow execution engine
(`src/services/executionEngine.js`): a directed graph of typed nodes
(trigger / data / transform / action) is walked depth-first from the
trigger node, each node is dispatched to a type-specific handler, and
results accumulate in a shared execution context keyed by node id.

Modelling conventions:
* JavaScript values (node configs, handler result envelopes, the
  execution context payload) are a JSON-like `Value` type.
* JavaScript object mutation (`obj[k] = v`, insertion-ordered string
  keys) is an association list with `setEntry`, which overwrites in
  place and otherwise appends.
* `new Date()` is a tick clock: each call yields the current `Nat`
  clock and advances it by one, so timestamps are strictly increasing
  over one run.
* The unbounded recursion of `executeNode` is modelled with a fuel
  parameter; exhausting fuel yields the distinguished `ExecResult.diverge`
  outcome, modelling nontermination (stack exhaustion), which is kept
  apart from a thrown JS error (`ExecResult.err`).
* The `console.log` at the top of `executeNode` is a visit log
  (`visitLog`), recording the order in which nodes are dispatched.
* The external store (Supabase) is passed in: the fetched workflow row,
  node rows and edge rows are parameters of `executeWorkflow`, and the
  insert of the execution record either persists the record or fails
  (parameter `insertFails`), in which case the error is only logged.
-/

/-- A JSON-like JavaScript value: node configs and handler result
envelopes. `null` also stands for JavaScript `undefined`. -/
inductive Value where
  | null : Value
  | bool (b : Bool) : Value
  | num (n : Int) : Value
  | str (s : String) : Value
  | arr (elems : List Value) : Value
  | obj (fields : List (String × Value)) : Value
deriving Repr

/-- Property access `v.k` on a JavaScript object (first binding wins);
`none` is `undefined`. -/
def getField (v : Value) (k : String) : Option Value :=
  match v with
  | .obj fields => fields.lookup k
  | _ => none

/-- JavaScript object assignment `m[k] = v`: overwrite the existing
binding in place (keeping its position in insertion order), otherwise
append a new binding. -/
def setEntry {α : Type} (m : List (String × α)) (k : String) (v : α) :
    List (String × α) :=
  match m with
  | [] => [(k, v)]
  | (k', v') :: rest =>
      if k' = k then (k, v) :: rest else (k', v') :: setEntry rest k v

/-- A workflow row: identifier, name, enabled flag. -/
structure Workflow where
  id : String
  name : String
  enabled : Bool
deriving Repr, DecidableEq

/-- A node row: identifier, owning workflow, category tag (`node_type`),
display label, configuration object. -/
structure Node where
  id : String
  workflow_id : String
  node_type : String
  label : String
  config : Value
deriving Repr

/-- An edge row: a directed connection between two nodes of a workflow. -/
structure Edge where
  id : String
  workflow_id : String
  source_node_id : String
  target_node_id : String
deriving Repr, DecidableEq

/-- The state threaded through one run's traversal: the execution
context (a JS object keyed by node id), the tick clock standing for
wall-clock time, and the visit log (the `console.log` at the top of
`executeNode`, recording each dispatched node's id in order). -/
structure EngineState where
  executionData : List (String × Value)
  clock : Nat
  visitLog : List String
deriving Repr

/-- Outcome of a (sub)traversal: normal completion with the final state,
a thrown error carrying its message and the state at the throw (the JS
context object is mutated in place, so its entries survive the throw),
or divergence (fuel exhausted — the unbounded recursion of the source). -/
inductive ExecResult where
  | ok (st : EngineState) : ExecResult
  | err (msg : String) (st : EngineState) : ExecResult
  | diverge : ExecResult
deriving Repr

/-! ## Data source handlers (stubs in the source) -/

/-- Handler `fetchWeatherData`: stubbed weather payload, no network access. -/
def fetchWeatherData (_config : Value) : Value :=
  .obj [("temp", .num 72), ("condition", .str "Sunny")]

/-- Handler `fetchCalendarData`: stubbed calendar payload. -/
def fetchCalendarData (_config : Value) : Value :=
  .obj [("events", .arr [])]

/-- Handler `fetchGithubData`: stubbed code-host payload. -/
def fetchGithubData (_config : Value) : Value :=
  .obj [("commits", .arr []), ("prs", .arr [])]

/-! ## Transform handlers -/

mutual

/-- Function `JSON.stringify` on our `Value` type (string escaping not modelled:
the configs exercised here contain no quotes or control characters). -/
def jsonStringify : Value → String
  | .null => "null"
  | .bool true => "true"
  | .bool false => "false"
  | .num n => toString n
  | .str s => "\"" ++ s ++ "\""
  | .arr elems => "[" ++ String.intercalate "," (jsonStringifyList elems) ++ "]"
  | .obj fields =>
      "\x7b" ++ String.intercalate "," (jsonStringifyFields fields) ++ "\x7d"

/-- Stringify each array element (the recursion of `jsonStringify`
through arrays). -/
def jsonStringifyList : List Value → List String
  | [] => []
  | v :: rest => jsonStringify v :: jsonStringifyList rest

/-- Stringify each object field as `"k":v` (the recursion of
`jsonStringify` through objects). -/
def jsonStringifyFields : List (String × Value) → List String
  | [] => []
  | (k, v) :: rest => ("\"" ++ k ++ "\":" ++ jsonStringify v) :: jsonStringifyFields rest

end

/-- Handler `summarizeData`: serialize the whole execution context. -/
def summarizeData (executionData : List (String × Value)) (_config : Value) : Value :=
  .obj [("summary", .str (jsonStringify (.obj executionData)))]

/-- Handler `filterData`: stub — pass the whole context through. -/
def filterData (executionData : List (String × Value)) (_config : Value) : Value :=
  .obj [("filtered", .obj executionData)]

/-- Handler `combineData`: stub — pass the whole context through. -/
def combineData (executionData : List (String × Value)) (_config : Value) : Value :=
  .obj [("combined", .obj executionData)]

/-! ## Action handlers (stubs in the source) -/

/-- Handler `sendEmail`: stub — records the attempt and its target. -/
def sendEmail (config : Value) (_executionData : List (String × Value)) : Value :=
  .obj [("sent", .bool true), ("to", (getField config "to").getD .null)]

/-- Handler `sendSMS`: stub — records the attempt and its target. -/
def sendSMS (config : Value) (_executionData : List (String × Value)) : Value :=
  .obj [("sent", .bool true), ("phone", (getField config "phone").getD .null)]

/-- Handler `postToSocial`: stub — records the attempt and its target. -/
def postToSocial (config : Value) (_executionData : List (String × Value)) : Value :=
  .obj [("posted", .bool true), ("platform", (getField config "platform").getD .null)]

/-! ## Node type execution functions

Each returns the result envelope together with the advanced clock (the
one `new Date()` call stamping the envelope). -/

/-- Handler `executeTrigger`: always succeeds; envelope carries the current time
and the node's raw configuration. -/
def executeTrigger (node : Node) (clock : Nat) : Value × Nat :=
  (.obj [("type", .str "trigger"), ("triggeredAt", .num clock),
         ("config", node.config)], clock + 1)

/-- Handler `executeDataNode`: dispatch on `config.source` to a stub fetcher;
unrecognized or missing source yields a "not configured" payload. -/
def executeDataNode (node : Node) (_executionData : List (String × Value))
    (clock : Nat) : Value × Nat :=
  let source := getField node.config "source"
  let data : Value :=
    match source with
    | some (.str "weather") => fetchWeatherData node.config
    | some (.str "calendar") => fetchCalendarData node.config
    | some (.str "github") => fetchGithubData node.config
    | _ => .obj [("message", .str "Data source not configured")]
  (.obj [("type", .str "data"), ("source", source.getD .null),
         ("data", data), ("fetchedAt", .num clock)], clock + 1)

/-- Handler `executeTransform`: dispatch on `config.type`; the default branch
wraps the entire current execution context under `transformed`. -/
def executeTransform (node : Node) (executionData : List (String × Value))
    (clock : Nat) : Value × Nat :=
  let transformType := getField node.config "type"
  let result : Value :=
    match transformType with
    | some (.str "summarize") => summarizeData executionData node.config
    | some (.str "filter") => filterData executionData node.config
    | some (.str "combine") => combineData executionData node.config
    | _ => .obj [("transformed", .obj executionData)]
  (.obj [("type", .str "transform"), ("transformType", transformType.getD .null),
         ("result", result), ("transformedAt", .num clock)], clock + 1)

/-- Handler `executeAction`: dispatch on `config.type`; the default branch yields
an "Action not configured" message payload. -/
def executeAction (node : Node) (executionData : List (String × Value))
    (clock : Nat) : Value × Nat :=
  let actionType := getField node.config "type"
  let result : Value :=
    match actionType with
    | some (.str "email") => sendEmail node.config executionData
    | some (.str "sms") => sendSMS node.config executionData
    | some (.str "post") => postToSocial node.config executionData
    | _ => .obj [("message", .str "Action not configured")]
  (.obj [("type", .str "action"), ("actionType", actionType.getD .null),
         ("result", result), ("actionTime", .num clock)], clock + 1)

/-! ## Adjacency map -/

/-- The body of the `edges.forEach` of `buildAdjacencyMap`:
`map[edge.source_node_id].push(edge.target_node_id)`. If the edge's
source id has no entry (that node does not exist), `map[...]` is
`undefined` and `.push` throws a TypeError, here an `Except.error`; a
nonexistent target id is pushed untouched. -/
def pushEdge (m : List (String × List String)) (edge : Edge) :
    Except String (List (String × List String)) :=
  match m.lookup edge.source_node_id with
  | some succs =>
      .ok (setEntry m edge.source_node_id (succs ++ [edge.target_node_id]))
  | none =>
      .error "Cannot read properties of undefined (reading 'push')"

/-- Builder `buildAdjacencyMap`: initialize `map[node.id] = []` for every node,
then push every edge's target onto its source's successor list, in edge
order (`pushEdge`, which can throw). -/
def buildAdjacencyMap (nodes : List Node) (edges : List Edge) :
    Except String (List (String × List String)) :=
  let map := nodes.foldl (fun m node => setEntry m node.id []) []
  edges.foldlM pushEdge map

/-! ## Recursive node execution -/

/-- The `switch (node.node_type)` block of `executeNode`: dispatch to the
matching handler, or throw on an unknown node type. -/
def dispatchNode (node : Node) (executionData : List (String × Value))
    (clock : Nat) : Except String (Value × Nat) :=
  match node.node_type with
  | "trigger" => .ok (executeTrigger node clock)
  | "data" => .ok (executeDataNode node executionData clock)
  | "transform" => .ok (executeTransform node executionData clock)
  | "action" => .ok (executeAction node executionData clock)
  | t => .error ("Unknown node type: " ++ t)

/-- The `for (const nextNodeId of connectedNodeIds)` loop of
`executeNode`: resolve each successor id against the node collection,
silently skip unresolvable ids, run the resolved node (at the given
remaining fuel) and thread the state; an error or divergence stops the
loop and propagates. -/
def runSuccessors (exec : Node → EngineState → ExecResult) (nodes : List Node) :
    List String → EngineState → ExecResult
  | [], st => .ok st
  | nextNodeId :: rest, st =>
      match nodes.find? (fun n => n.id == nextNodeId) with
      | none => runSuccessors exec nodes rest st
      | some nextNode =>
          match exec nextNode st with
          | .ok st' => runSuccessors exec nodes rest st'
          | r => r

/-- Walker `executeNode`: log the visit, dispatch the node's handler, store the
result envelope under the node's id (overwriting any previous entry),
then recurse into the successors listed in the adjacency map. The fuel
models the call stack: each nested `executeNode` frame consumes one
unit, and running out is divergence. -/
def executeNode : Nat → Node → List (String × List String) → List Node →
    EngineState → ExecResult
  | 0, _, _, _, _ => .diverge
  | Nat.succ fuel, node, adjacencyMap, nodes, st =>
      let st1 : EngineState := { st with visitLog := st.visitLog ++ [node.id] }
      match dispatchNode node st1.executionData st1.clock with
      | .error msg => .err msg st1
      | .ok (result, clock') =>
          let st2 : EngineState :=
            { st1 with executionData := setEntry st1.executionData node.id result,
                       clock := clock' }
          let connectedNodeIds := (adjacencyMap.lookup node.id).getD []
          runSuccessors (fun n s => executeNode fuel n adjacencyMap nodes s)
            nodes connectedNodeIds st2

/-! ## Logging and orchestration -/

/-- One row of the `executions` table. -/
structure ExecutionRecord where
  id : String
  workflow_id : String
  status : String
  error_message : Option String
  execution_data : Option (List (String × Value))
  started_at : Nat
  ended_at : Nat
deriving Repr

/-- Logger `logExecution`: build the execution record and insert it. A storage
error (`insertFails`) leaves the record unpersisted (`none`) and is only
logged — nothing propagates to the caller. Returns the advanced clock
(the `new Date()` for `endTime`). -/
def logExecution (insertFails : Bool) (workflowId executionId status : String)
    (errorMessage : Option String) (executionData : Option (List (String × Value)))
    (startTime clock : Nat) : Option ExecutionRecord × Nat :=
  let endTime := clock
  let record : ExecutionRecord :=
    { id := executionId, workflow_id := workflowId, status := status,
      error_message := errorMessage, execution_data := executionData,
      started_at := startTime, ended_at := endTime }
  (if insertFails then none else some record, clock + 1)

/-- The caller-visible outcome of `executeWorkflow`: success flag, the
execution id generated at the start of the run, and either the final
execution context (success) or the error message (failure). -/
structure RunOutcome where
  success : Bool
  executionId : String
  executionData : Option (List (String × Value))
  error : Option String
deriving Repr

/-- Result of one `executeWorkflow` call: the returned outcome together
with the persisted execution record (`none` when the insert failed), or
divergence inherited from the traversal. -/
inductive RunResult where
  | ok (outcome : RunOutcome) (persisted : Option ExecutionRecord) : RunResult
  | diverge : RunResult
deriving Repr

/-- The `catch` block of `executeWorkflow`: log a failed execution record
with no context payload and return a failure outcome. -/
def failRun (insertFails : Bool) (workflowId executionId msg : String)
    (startTime clock : Nat) : RunResult :=
  let (persisted, _) :=
    logExecution insertFails workflowId executionId "failed" (some msg) none
      startTime clock
  .ok { success := false, executionId := executionId, executionData := none,
        error := some msg } persisted

/-- Orchestrator `executeWorkflow`: generate the execution id and start time, check
the preconditions in order (workflow found, enabled, has nodes, has a
trigger node), build the adjacency map, walk the graph from the trigger
node, and log the outcome. The store reads are parameters: `workflow?`
is the fetched workflow row (`none` for not-found), `nodes` and `edges`
the fetched rows; `executionId` stands for the generated uuid and
`clock0` for the wall clock at entry. -/
def executeWorkflow (insertFails : Bool) (executionId workflowId : String)
    (workflow? : Option Workflow) (nodes : List Node) (edges : List Edge)
    (fuel : Nat) (clock0 : Nat) : RunResult :=
  let startTime := clock0
  let clock := clock0 + 1
  match workflow? with
  | none => failRun insertFails workflowId executionId "Workflow not found" startTime clock
  | some workflow =>
    if !workflow.enabled then
      failRun insertFails workflowId executionId "Workflow is disabled" startTime clock
    else if nodes.isEmpty then
      failRun insertFails workflowId executionId "Workflow has no nodes" startTime clock
    else
      match nodes.find? (fun n => n.node_type == "trigger") with
      | none =>
          failRun insertFails workflowId executionId
            "No trigger node found. Workflow must start with a trigger" startTime clock
      | some triggerNode =>
          match buildAdjacencyMap nodes edges with
          | .error msg => failRun insertFails workflowId executionId msg startTime clock
          | .ok adjacencyMap =>
              match executeNode fuel triggerNode adjacencyMap nodes
                  { executionData := [], clock := clock, visitLog := [] } with
              | .diverge => .diverge
              | .err msg st =>
                  failRun insertFails workflowId executionId msg startTime st.clock
              | .ok st =>
                  let (persisted, _) :=
                    logExecution insertFails workflowId executionId "completed" none
                      (some st.executionData) startTime st.clock
                  .ok { success := true, executionId := executionId,
                        executionData := some st.executionData, error := none }
                    persisted

/-- The timestamp field of a handler's result envelope (each of the four
handlers stamps exactly one of these keys). -/
def envTimestamp (v : Value) : Option Value :=
  (getField v "triggeredAt").orElse fun _ =>
    (getField v "fetchedAt").orElse fun _ =>
      (getField v "transformedAt").orElse fun _ =>
        getField v "actionTime"

/-- One directed edge step of a workflow's edge set, on node identifiers. -/
def edgeStep (edges : List Edge) (u v : String) : Prop :=
  ∃ e ∈ edges, e.source_node_id = u ∧ e.target_node_id = v

/-- An edge set is acyclic when no identifier reaches itself through a
nonempty chain of edges. -/
def AcyclicEdges (edges : List Edge) : Prop :=
  ∀ u, ¬ Relation.TransGen (edgeStep edges) u u

/-- The outcome component of a run result (`none` for divergence). -/
def runOutcome : RunResult → Option RunOutcome
  | .ok outcome _ => some outcome
  | .diverge => none

/-- The persisted execution record of a run result, if any. -/
def runPersisted : RunResult → Option ExecutionRecord
  | .ok _ persisted => persisted
  | .diverge => none

/-- A concrete cyclic workflow: trigger `t` feeds `x`, and `x ↔ y` form a
two-node cycle. -/
def cycT : Node := { id := "t", workflow_id := "w", node_type := "trigger",
                     label := "T", config := .obj [] }

def cycX : Node := { id := "x", workflow_id := "w", node_type := "transform",
                     label := "X", config := .obj [] }

def cycY : Node := { id := "y", workflow_id := "w", node_type := "transform",
                     label := "Y", config := .obj [] }

def cycWf : Workflow := { id := "w", name := "cyclic", enabled := true }

def cycNodes : List Node := [cycT, cycX, cycY]

def cycEdges : List Edge :=
  [{ id := "e1", workflow_id := "w", source_node_id := "t", target_node_id := "x" },
   { id := "e2", workflow_id := "w", source_node_id := "x", target_node_id := "y" },
   { id := "e3", workflow_id := "w", source_node_id := "y", target_node_id := "x" }]

def cycAdj : List (String × List String) :=
  [("t", ["x"]), ("x", ["y"]), ("y", ["x"])]

/-- A cyclic edge set whose cycle is unreachable from the trigger: the
trigger has no outgoing edge, while `x ↔ y` still form a cycle. -/
def cyc2Edges : List Edge :=
  [{ id := "e2", workflow_id := "w", source_node_id := "x", target_node_id := "y" },
   { id := "e3", workflow_id := "w", source_node_id := "y", target_node_id := "x" }]

/-! ## Concrete workflows for witnesses and counterexamples -/

def chainWf : Workflow := { id := "w", name := "chain", enabled := true }

def chainT : Node := { id := "t", workflow_id := "w", node_type := "trigger",
                       label := "T", config := .obj [] }

def chainD : Node := { id := "d", workflow_id := "w", node_type := "data",
                       label := "D", config := .obj [("source", .str "weather")] }

def chainTr : Node := { id := "tr", workflow_id := "w", node_type := "transform",
                        label := "TR", config := .obj [] }

def chainA : Node := { id := "a", workflow_id := "w", node_type := "action",
                       label := "A",
                       config := .obj [("type", .str "email"),
                                       ("to", .str "user@example.com")] }

def chainE1 : Edge := { id := "e1", workflow_id := "w",
                        source_node_id := "t", target_node_id := "d" }

def chainE2 : Edge := { id := "e2", workflow_id := "w",
                        source_node_id := "d", target_node_id := "tr" }

def chainE3 : Edge := { id := "e3", workflow_id := "w",
                        source_node_id := "tr", target_node_id := "a" }

def diaWf : Workflow := { id := "w", name := "diamond", enabled := true }

def diaT : Node := { id := "T", workflow_id := "w", node_type := "trigger",
                     label := "T", config := .obj [] }

def diaA : Node := { id := "A", workflow_id := "w", node_type := "data",
                     label := "A", config := .obj [("source", .str "weather")] }

def diaB : Node := { id := "B", workflow_id := "w", node_type := "data",
                     label := "B", config := .obj [("source", .str "github")] }

def diaC : Node := { id := "C", workflow_id := "w", node_type := "transform",
                     label := "C", config := .obj [] }

def diaNodes : List Node := [diaT, diaA, diaB, diaC]

def diaEdges : List Edge :=
  [{ id := "e1", workflow_id := "w", source_node_id := "T", target_node_id := "A" },
   { id := "e2", workflow_id := "w", source_node_id := "T", target_node_id := "B" },
   { id := "e3", workflow_id := "w", source_node_id := "A", target_node_id := "C" },
   { id := "e4", workflow_id := "w", source_node_id := "B", target_node_id := "C" }]

def diaAdj : List (String × List String) :=
  [("T", ["A", "B"]), ("A", ["C"]), ("B", ["C"]), ("C", [])]

/-! ## Dispatch lemmas -/

lemma dispatchNode_trigger (node : Node) (ctx : List (String × Value)) (clock : Nat)
    (h : node.node_type = "trigger") :
    dispatchNode node ctx clock = .ok (executeTrigger node clock) := by
  simp [dispatchNode, h]

lemma dispatchNode_unknown (node : Node) (ctx : List (String × Value)) (clock : Nat)
    (h : node.node_type ∉ (["trigger", "data", "transform", "action"] : List String)) :
    dispatchNode node ctx clock = .error ("Unknown node type: " ++ node.node_type) := by
  simp only [List.mem_cons, not_or] at h
  unfold dispatchNode
  split
  all_goals simp_all

lemma dispatchNode_known (node : Node) (ctx : List (String × Value)) (clock : Nat)
    (h : node.node_type ∈ (["trigger", "data", "transform", "action"] : List String)) :
    ∃ v, dispatchNode node ctx clock = .ok (v, clock + 1) ∧
      envTimestamp v = some (.num clock) := by
  simp only [List.mem_cons, List.not_mem_nil, or_false] at h
  rcases h with h | h | h | h
  · exact ⟨(executeTrigger node clock).1,
      by simp [dispatchNode, h, executeTrigger],
      by simp [envTimestamp, executeTrigger, getField, List.lookup, Option.orElse]⟩
  · exact ⟨(executeDataNode node ctx clock).1,
      by simp [dispatchNode, h, executeDataNode],
      by simp [envTimestamp, executeDataNode, getField, List.lookup, Option.orElse]⟩
  · exact ⟨(executeTransform node ctx clock).1,
      by simp [dispatchNode, h, executeTransform],
      by simp [envTimestamp, executeTransform, getField, List.lookup, Option.orElse]⟩
  · exact ⟨(executeAction node ctx clock).1,
      by simp [dispatchNode, h, executeAction],
      by simp [envTimestamp, executeAction, getField, List.lookup, Option.orElse]⟩

lemma dispatchNode_ok_clock (node : Node) (ctx : List (String × Value)) (clock : Nat)
    (v : Value) (clock2 : Nat) (h : dispatchNode node ctx clock = .ok (v, clock2)) :
    clock2 = clock + 1 := by
  unfold dispatchNode at h
  split at h
  all_goals first
    | exact Except.noConfusion h
    | (injection h with h2
       have h3 := congrArg Prod.snd h2
       simp [executeTrigger, executeDataNode, executeTransform, executeAction] at h3
       omega)

/-! ## Walker step lemmas -/
lemma executeNode_zero (node : Node) (adj : List (String × List String))
    (nodes : List Node) (st : EngineState) :
    executeNode 0 node adj nodes st = .diverge := rfl

lemma executeNode_succ (fuel : Nat) (node : Node) (adj : List (String × List String))
    (nodes : List Node) (st : EngineState) :
    executeNode (fuel + 1) node adj nodes st =
      match dispatchNode node st.executionData st.clock with
      | .error msg => .err msg { st with visitLog := st.visitLog ++ [node.id] }
      | .ok (result, clock') =>
          runSuccessors (fun n s => executeNode fuel n adj nodes s) nodes
            ((adj.lookup node.id).getD [])
            { executionData := setEntry st.executionData node.id result,
              clock := clock', visitLog := st.visitLog ++ [node.id] } := rfl

lemma executeNode_succ_ok (fuel : Nat) (node : Node) (adj : List (String × List String))
    (nodes : List Node) (st : EngineState) (result : Value) (clock' : Nat)
    (h : dispatchNode node st.executionData st.clock = .ok (result, clock')) :
    executeNode (fuel + 1) node adj nodes st =
      runSuccessors (fun n s => executeNode fuel n adj nodes s) nodes
        ((adj.lookup node.id).getD [])
        { executionData := setEntry st.executionData node.id result,
          clock := clock', visitLog := st.visitLog ++ [node.id] } := by
  rw [executeNode_succ, h]

lemma executeNode_succ_err (fuel : Nat) (node : Node) (adj : List (String × List String))
    (nodes : List Node) (st : EngineState) (msg : String)
    (h : dispatchNode node st.executionData st.clock = .error msg) :
    executeNode (fuel + 1) node adj nodes st =
      .err msg { st with visitLog := st.visitLog ++ [node.id] } := by
  rw [executeNode_succ, h]

lemma runSuccessors_nil (exec : Node → EngineState → ExecResult) (nodes : List Node)
    (st : EngineState) : runSuccessors exec nodes [] st = .ok st := rfl

lemma runSuccessors_cons_none (exec : Node → EngineState → ExecResult) (nodes : List Node)
    (nid : String) (rest : List String) (st : EngineState)
    (h : nodes.find? (fun n => n.id == nid) = none) :
    runSuccessors exec nodes (nid :: rest) st = runSuccessors exec nodes rest st := by
  simp [runSuccessors, h]

lemma runSuccessors_cons_ok (exec : Node → EngineState → ExecResult) (nodes : List Node)
    (nid : String) (rest : List String) (st st' : EngineState) (nd : Node)
    (h : nodes.find? (fun n => n.id == nid) = some nd) (hx : exec nd st = .ok st') :
    runSuccessors exec nodes (nid :: rest) st = runSuccessors exec nodes rest st' := by
  simp [runSuccessors, h, hx]

lemma runSuccessors_cons_err (exec : Node → EngineState → ExecResult) (nodes : List Node)
    (nid : String) (rest : List String) (st : EngineState) (nd : Node) (msg : String)
    (stE : EngineState)
    (h : nodes.find? (fun n => n.id == nid) = some nd) (hx : exec nd st = .err msg stE) :
    runSuccessors exec nodes (nid :: rest) st = .err msg stE := by
  simp [runSuccessors, h, hx]

-- runSuccessors only diverges because a successor's execution diverges
lemma runSuccessors_diverge (exec : Node → EngineState → ExecResult) (nodes : List Node)
    (ids : List String) (st : EngineState)
    (h : runSuccessors exec nodes ids st = .diverge) :
    ∃ nid ∈ ids, ∃ nd st2, nodes.find? (fun n => n.id == nid) = some nd ∧
      exec nd st2 = .diverge := by
  induction ids generalizing st with
  | nil => simp [runSuccessors] at h
  | cons nid rest ih =>
      rw [runSuccessors] at h
      cases hfind : nodes.find? (fun n => n.id == nid) with
      | none =>
          simp only [hfind] at h
          obtain ⟨x, hx, rest'⟩ := ih st h
          exact ⟨x, List.mem_cons_of_mem _ hx, rest'⟩
      | some nd =>
          simp only [hfind] at h
          cases hx : exec nd st with
          | ok st' =>
              simp only [hx] at h
              obtain ⟨x, hxm, rest'⟩ := ih st' h
              exact ⟨x, List.mem_cons_of_mem _ hxm, rest'⟩
          | err m s => simp only [hx] at h; exact absurd h (by simp)
          | diverge => exact ⟨nid, List.mem_cons_self _ _, nd, st, hfind, hx⟩

/-! ## State preservation through the walker -/
lemma lookup_setEntry {α : Type} (m : List (String × α)) (k : String) (v : α)
    (k' : String) :
    (setEntry m k v).lookup k' = if k' = k then some v else m.lookup k' := by
  induction m with
  | nil =>
      by_cases h : k' = k
      · subst h; simp [setEntry, List.lookup]
      · simp [setEntry, List.lookup, h, beq_false_of_ne h]
  | cons p rest ih =>
      obtain ⟨k0, v0⟩ := p
      by_cases h0 : k0 = k
      · subst h0
        by_cases h : k' = k0
        · subst h; simp [setEntry, List.lookup]
        · simp [setEntry, List.lookup, h, beq_false_of_ne h]
      · by_cases h : k' = k0
        · subst h
          have hkk : ¬k' = k := fun hc => h0 (hc.symm ▸ rfl)
          simp [setEntry, h0, List.lookup, hkk]
        · simp [setEntry, h0, List.lookup, h, beq_false_of_ne h, ih]

lemma runSuccessors_ok_rel {R : EngineState → EngineState → Prop}
    (hrefl : ∀ s, R s s)
    (htrans : ∀ a b c, R a b → R b c → R a c)
    (exec : Node → EngineState → ExecResult) (nodes : List Node)
    (hexec : ∀ n s s', exec n s = .ok s' → R s s') :
    ∀ ids st st', runSuccessors exec nodes ids st = .ok st' → R st st' := by
  intro ids
  induction ids with
  | nil =>
      intro st st' h
      rw [runSuccessors] at h
      cases h
      exact hrefl st
  | cons nid rest ih =>
      intro st st' h
      rw [runSuccessors] at h
      cases hfind : nodes.find? (fun n => n.id == nid) with
      | none => simp only [hfind] at h; exact ih st st' h
      | some nd =>
          simp only [hfind] at h
          cases hx : exec nd st with
          | ok s1 =>
              simp only [hx] at h
              exact htrans _ _ _ (hexec nd st s1 hx) (ih s1 st' h)
          | err m s => simp only [hx] at h; exact absurd h (by simp)
          | diverge => simp only [hx] at h; exact absurd h (by simp)

lemma executeNode_ok_rel {R : EngineState → EngineState → Prop}
    (hrefl : ∀ s, R s s)
    (htrans : ∀ a b c, R a b → R b c → R a c)
    (hstep : ∀ (node : Node) (st : EngineState) (result : Value) (clock' : Nat),
      R st { executionData := setEntry st.executionData node.id result,
             clock := clock', visitLog := st.visitLog ++ [node.id] }) :
    ∀ fuel (node : Node) adj nodes (st st' : EngineState),
      executeNode fuel node adj nodes st = .ok st' → R st st' := by
  intro fuel
  induction fuel with
  | zero => intro node adj nodes st st' h; exact absurd h (by simp [executeNode_zero])
  | succ fuel ih =>
      intro node adj nodes st st' h
      rw [executeNode_succ] at h
      cases hd : dispatchNode node st.executionData st.clock with
      | error msg => simp only [hd] at h; exact absurd h (by simp)
      | ok p =>
          obtain ⟨result, clock'⟩ := p
          simp only [hd] at h
          exact htrans _ _ _ (hstep node st result clock')
            (runSuccessors_ok_rel hrefl htrans _ nodes
              (fun n s s' hx => ih n adj nodes s s' hx) _ _ _ h)

/-! ## Adjacency map characterization -/
lemma adjInit_lookup (nodes : List Node) (m : List (String × List String)) (id : String) :
    (nodes.foldl (fun m node => setEntry m node.id []) m).lookup id =
      if id ∈ nodes.map Node.id then some [] else m.lookup id := by
  induction nodes generalizing m with
  | nil => simp
  | cons node rest ih =>
      rw [List.foldl_cons, ih]
      by_cases hr : id ∈ rest.map Node.id
      · simp [hr]
      · by_cases hn : id = node.id
        · simp [hr, hn, lookup_setEntry]
        · simp [hr, hn, lookup_setEntry]

lemma adjEdges_ok (edges : List Edge) (m : List (String × List String))
    (hdom : ∀ e ∈ edges, (m.lookup e.source_node_id).isSome) :
    ∃ M, edges.foldlM pushEdge m = .ok M ∧
      ∀ id, M.lookup id = (m.lookup id).map
        (fun l => l ++ (edges.filter (fun e => e.source_node_id == id)).map
          Edge.target_node_id) := by
  induction edges generalizing m with
  | nil =>
      refine ⟨m, rfl, ?_⟩
      intro id
      cases m.lookup id <;> simp
  | cons e rest ih =>
      have hsome := hdom e (List.mem_cons_self _ _)
      obtain ⟨l, hl⟩ := Option.isSome_iff_exists.mp hsome
      have hdom' : ∀ e' ∈ rest,
          ((setEntry m e.source_node_id (l ++ [e.target_node_id])).lookup
            e'.source_node_id).isSome := by
        intro e' he'
        rw [lookup_setEntry]
        by_cases hx : e'.source_node_id = e.source_node_id
        · rw [if_pos hx]; rfl
        · rw [if_neg hx]
          exact hdom e' (List.mem_cons_of_mem _ he')
      obtain ⟨M, hM, hchar⟩ := ih _ hdom'
      refine ⟨M, ?_, ?_⟩
      · rw [List.foldlM_cons]
        rw [show pushEdge m e = .ok (setEntry m e.source_node_id
          (l ++ [e.target_node_id])) from by simp [pushEdge, hl]]
        simpa using hM
      · intro id
        rw [hchar id, lookup_setEntry]
        by_cases hx : id = e.source_node_id
        · subst hx
          simp [hl, List.filter_cons, beq_self_eq_true]
        · have : (e.source_node_id == id) = false := beq_false_of_ne (Ne.symm hx)
          simp [hx, List.filter_cons, this]

lemma buildAdjacencyMap_ok (nodes : List Node) (edges : List Edge)
    (hsrc : ∀ e ∈ edges, e.source_node_id ∈ nodes.map Node.id) :
    ∃ M, buildAdjacencyMap nodes edges = .ok M ∧
      (∀ id, id ∈ nodes.map Node.id →
        M.lookup id = some ((edges.filter
          (fun e => e.source_node_id == id)).map Edge.target_node_id)) ∧
      (∀ id, id ∉ nodes.map Node.id → M.lookup id = none) := by
  have hinit := adjInit_lookup nodes ([] : List (String × List String))
  have hdom : ∀ e ∈ edges,
      ((nodes.foldl (fun m node => setEntry m node.id [])
        ([] : List (String × List String))).lookup e.source_node_id).isSome := by
    intro e he
    rw [hinit]
    simp [hsrc e he]
  obtain ⟨M, hM, hchar⟩ := adjEdges_ok edges _ hdom
  refine ⟨M, ?_, ?_, ?_⟩
  · unfold buildAdjacencyMap
    exact hM
  · intro id hid
    rw [hchar id, hinit id]
    simp [hid]
  · intro id hid
    rw [hchar id, hinit id]
    simp [hid]

lemma executeWorkflow_walk (insertFails : Bool) (execId wfId : String)
    (wf : Workflow) (nodes : List Node) (edges : List Edge) (fuel c0 : Nat)
    (trigger : Node) (M : List (String × List String))
    (hwf : wf.enabled = true) (hne : nodes ≠ [])
    (htrig : nodes.find? (fun n => n.node_type == "trigger") = some trigger)
    (hadj : buildAdjacencyMap nodes edges = .ok M) :
    executeWorkflow insertFails execId wfId (some wf) nodes edges fuel c0 =
      match executeNode fuel trigger M nodes
          { executionData := [], clock := c0 + 1, visitLog := [] } with
      | .diverge => .diverge
      | .err msg st => failRun insertFails wfId execId msg c0 st.clock
      | .ok st =>
          .ok { success := true, executionId := execId,
                executionData := some st.executionData, error := none }
            (if insertFails then none
             else some { id := execId, workflow_id := wfId, status := "completed",
                         error_message := none,
                         execution_data := some st.executionData,
                         started_at := c0, ended_at := st.clock }) := by
  unfold executeWorkflow
  dsimp only
  rw [hwf, htrig, hadj, Bool.not_true]
  rw [if_neg Bool.false_ne_true]
  rw [if_neg (fun hc => hne (List.isEmpty_iff.mp hc))]
  dsimp only
  cases hrun : executeNode fuel trigger M nodes
      { executionData := [], clock := c0 + 1, visitLog := [] } with
  | ok st => simp [logExecution]
  | err msg st => rfl
  | diverge => rfl

/-! ## Precondition lemmas -/
lemma executeWorkflow_notFound (insertFails : Bool) (execId wfId : String)
    (nodes : List Node) (edges : List Edge) (fuel c0 : Nat) :
    executeWorkflow insertFails execId wfId none nodes edges fuel c0 =
      .ok { success := false, executionId := execId, executionData := none,
            error := some "Workflow not found" }
        (if insertFails then none
         else some { id := execId, workflow_id := wfId, status := "failed",
                     error_message := some "Workflow not found",
                     execution_data := none,
                     started_at := c0, ended_at := c0 + 1 }) := by
  unfold executeWorkflow failRun logExecution
  dsimp only

lemma executeWorkflow_disabled (insertFails : Bool) (execId wfId : String)
    (wf : Workflow) (nodes : List Node) (edges : List Edge) (fuel c0 : Nat)
    (hwf : wf.enabled = false) :
    executeWorkflow insertFails execId wfId (some wf) nodes edges fuel c0 =
      .ok { success := false, executionId := execId, executionData := none,
            error := some "Workflow is disabled" }
        (if insertFails then none
         else some { id := execId, workflow_id := wfId, status := "failed",
                     error_message := some "Workflow is disabled",
                     execution_data := none,
                     started_at := c0, ended_at := c0 + 1 }) := by
  simp [executeWorkflow, failRun, logExecution, hwf]

lemma executeWorkflow_noNodes (insertFails : Bool) (execId wfId : String)
    (wf : Workflow) (edges : List Edge) (fuel c0 : Nat)
    (hwf : wf.enabled = true) :
    executeWorkflow insertFails execId wfId (some wf) [] edges fuel c0 =
      .ok { success := false, executionId := execId, executionData := none,
            error := some "Workflow has no nodes" }
        (if insertFails then none
         else some { id := execId, workflow_id := wfId, status := "failed",
                     error_message := some "Workflow has no nodes",
                     execution_data := none,
                     started_at := c0, ended_at := c0 + 1 }) := by
  simp [executeWorkflow, failRun, logExecution, hwf]

lemma executeWorkflow_noTrigger (insertFails : Bool) (execId wfId : String)
    (wf : Workflow) (nodes : List Node) (edges : List Edge) (fuel c0 : Nat)
    (hwf : wf.enabled = true) (hne : nodes ≠ [])
    (hnt : ∀ n ∈ nodes, n.node_type ≠ "trigger") :
    executeWorkflow insertFails execId wfId (some wf) nodes edges fuel c0 =
      .ok { success := false, executionId := execId, executionData := none,
            error := some "No trigger node found. Workflow must start with a trigger" }
        (if insertFails then none
         else some { id := execId, workflow_id := wfId, status := "failed",
                     error_message :=
                       some "No trigger node found. Workflow must start with a trigger",
                     execution_data := none,
                     started_at := c0, ended_at := c0 + 1 }) := by
  have hfind : nodes.find? (fun n => n.node_type == "trigger") = none := by
    rw [List.find?_eq_none]
    intro n hn
    simp [hnt n hn]
  unfold executeWorkflow failRun logExecution
  dsimp only
  rw [hwf, hfind, Bool.not_true]
  rw [if_neg Bool.false_ne_true]
  rw [if_neg (fun hc => hne (List.isEmpty_iff.mp hc))]

/-! ## Symbolic runs: linear chain -/
lemma linear_chain_walk (t d tr a : Node) (e1 e2 e3 : Edge) (fuel c0 : Nat)
    (ht : t.node_type = "trigger") (hd : d.node_type = "data")
    (htr : tr.node_type = "transform") (ha : a.node_type = "action")
    (h1 : e1.source_node_id = t.id) (h2 : e1.target_node_id = d.id)
    (h3 : e2.source_node_id = d.id) (h4 : e2.target_node_id = tr.id)
    (h5 : e3.source_node_id = tr.id) (h6 : e3.target_node_id = a.id)
    (ne_td : t.id ≠ d.id) (ne_ttr : t.id ≠ tr.id) (ne_ta : t.id ≠ a.id)
    (ne_dtr : d.id ≠ tr.id) (ne_da : d.id ≠ a.id) (ne_tra : tr.id ≠ a.id) :
    ∃ M vt vd vtr va,
      buildAdjacencyMap [t, d, tr, a] [e1, e2, e3] = .ok M ∧
      executeNode (fuel + 4) t M [t, d, tr, a]
          { executionData := [], clock := c0 + 1, visitLog := [] } =
        .ok { executionData :=
                [(t.id, vt), (d.id, vd), (tr.id, vtr), (a.id, va)],
              clock := c0 + 5,
              visitLog := [t.id, d.id, tr.id, a.id] } := by
  -- successor resolution inside the node collection
  have hfind_d : List.find? (fun n => n.id == d.id) [t, d, tr, a] = some d := by
    simp [List.find?, beq_false_of_ne ne_td]
  have hfind_tr : List.find? (fun n => n.id == tr.id) [t, d, tr, a] = some tr := by
    simp [List.find?, beq_false_of_ne ne_ttr, beq_false_of_ne ne_dtr]
  have hfind_a : List.find? (fun n => n.id == a.id) [t, d, tr, a] = some a := by
    simp [List.find?, beq_false_of_ne ne_ta, beq_false_of_ne ne_da,
      beq_false_of_ne ne_tra]
  -- the adjacency map of the chain
  obtain ⟨M, hM, hMin, _⟩ := buildAdjacencyMap_ok [t, d, tr, a] [e1, e2, e3]
    (by
      intro e he
      simp only [List.mem_cons, List.not_mem_nil, or_false] at he
      rcases he with rfl | rfl | rfl <;> simp [h1, h3, h5])
  have hMt : M.lookup t.id = some [d.id] := by
    rw [hMin t.id (by simp)]
    simp [List.filter_cons, h1, h3, h5, h2,
      beq_false_of_ne (Ne.symm ne_td), beq_false_of_ne (Ne.symm ne_ttr)]
  have hMd : M.lookup d.id = some [tr.id] := by
    rw [hMin d.id (by simp)]
    simp [List.filter_cons, h1, h3, h5, h4,
      beq_false_of_ne ne_td, beq_false_of_ne (Ne.symm ne_dtr)]
  have hMtr : M.lookup tr.id = some [a.id] := by
    rw [hMin tr.id (by simp)]
    simp [List.filter_cons, h1, h3, h5, h6,
      beq_false_of_ne ne_ttr, beq_false_of_ne ne_dtr]
  have hMa : M.lookup a.id = some [] := by
    rw [hMin a.id (by simp)]
    simp [List.filter_cons, h1, h3, h5,
      beq_false_of_ne ne_ta, beq_false_of_ne ne_da, beq_false_of_ne ne_tra]
  -- the four handler dispatches, at strictly increasing clocks
  obtain ⟨vt, hvt, -⟩ := dispatchNode_known t [] (c0 + 1) (by simp [ht])
  obtain ⟨vd, hvd, -⟩ := dispatchNode_known d [(t.id, vt)] (c0 + 2) (by simp [hd])
  obtain ⟨vtr, hvtr, -⟩ :=
    dispatchNode_known tr [(t.id, vt), (d.id, vd)] (c0 + 3) (by simp [htr])
  obtain ⟨va, hva, -⟩ :=
    dispatchNode_known a [(t.id, vt), (d.id, vd), (tr.id, vtr)] (c0 + 4)
      (by simp [ha])
  refine ⟨M, vt, vd, vtr, va, hM, ?_⟩
  -- context updates normalized to literal association lists
  have hset2 : setEntry [(t.id, vt)] d.id vd = [(t.id, vt), (d.id, vd)] := by
    simp [setEntry, ne_td]
  have hset3 : setEntry [(t.id, vt), (d.id, vd)] tr.id vtr =
      [(t.id, vt), (d.id, vd), (tr.id, vtr)] := by
    simp [setEntry, ne_ttr, ne_dtr]
  have hset4 : setEntry [(t.id, vt), (d.id, vd), (tr.id, vtr)] a.id va =
      [(t.id, vt), (d.id, vd), (tr.id, vtr), (a.id, va)] := by
    simp [setEntry, ne_ta, ne_da, ne_tra]
  -- walk bottom-up: action, transform, data, trigger
  have run_a : executeNode (fuel + 1) a M [t, d, tr, a]
      { executionData := [(t.id, vt), (d.id, vd), (tr.id, vtr)],
        clock := c0 + 4, visitLog := [t.id, d.id, tr.id] } =
      .ok { executionData := [(t.id, vt), (d.id, vd), (tr.id, vtr), (a.id, va)],
            clock := c0 + 5, visitLog := [t.id, d.id, tr.id, a.id] } := by
    rw [executeNode_succ_ok _ _ _ _ _ va (c0 + 5) hva, hMa, hset4]
    rfl
  have run_tr : executeNode (fuel + 2) tr M [t, d, tr, a]
      { executionData := [(t.id, vt), (d.id, vd)],
        clock := c0 + 3, visitLog := [t.id, d.id] } =
      .ok { executionData := [(t.id, vt), (d.id, vd), (tr.id, vtr), (a.id, va)],
            clock := c0 + 5, visitLog := [t.id, d.id, tr.id, a.id] } := by
    rw [executeNode_succ_ok _ _ _ _ _ vtr (c0 + 4) hvtr, hMtr, hset3]
    rw [Option.getD_some]
    rw [runSuccessors_cons_ok _ _ _ _ _ _ a hfind_a run_a]
    rfl
  have run_d : executeNode (fuel + 3) d M [t, d, tr, a]
      { executionData := [(t.id, vt)], clock := c0 + 2, visitLog := [t.id] } =
      .ok { executionData := [(t.id, vt), (d.id, vd), (tr.id, vtr), (a.id, va)],
            clock := c0 + 5, visitLog := [t.id, d.id, tr.id, a.id] } := by
    rw [executeNode_succ_ok _ _ _ _ _ vd (c0 + 3) hvd, hMd, hset2]
    rw [Option.getD_some]
    rw [runSuccessors_cons_ok _ _ _ _ _ _ tr hfind_tr run_tr]
    rfl
  rw [executeNode_succ_ok _ _ _ _ _ vt (c0 + 2) hvt, hMt]
  rw [Option.getD_some]
  rw [runSuccessors_cons_ok _ _ _ _ _ _ d hfind_d run_d]
  rfl

/-! ## Symbolic runs: diamond -/
lemma diamond_walk (t A B C : Node) (e1 e2 e3 e4 : Edge) (fuel c0 : Nat)
    (ht : t.node_type = "trigger")
    (hA : A.node_type ∈ (["trigger", "data", "transform", "action"] : List String))
    (hB : B.node_type ∈ (["trigger", "data", "transform", "action"] : List String))
    (hC : C.node_type ∈ (["trigger", "data", "transform", "action"] : List String))
    (h1 : e1.source_node_id = t.id) (h2 : e1.target_node_id = A.id)
    (h3 : e2.source_node_id = t.id) (h4 : e2.target_node_id = B.id)
    (h5 : e3.source_node_id = A.id) (h6 : e3.target_node_id = C.id)
    (h7 : e4.source_node_id = B.id) (h8 : e4.target_node_id = C.id)
    (ne_tA : t.id ≠ A.id) (ne_tB : t.id ≠ B.id) (ne_tC : t.id ≠ C.id)
    (ne_AB : A.id ≠ B.id) (ne_AC : A.id ≠ C.id) (ne_BC : B.id ≠ C.id) :
    ∃ M vt vA vB vC1 vC2,
      buildAdjacencyMap [t, A, B, C] [e1, e2, e3, e4] = .ok M ∧
      executeNode (fuel + 2) A M [t, A, B, C]
          { executionData := [(t.id, vt)], clock := c0 + 2, visitLog := [t.id] } =
        .ok { executionData := [(t.id, vt), (A.id, vA), (C.id, vC1)],
              clock := c0 + 4, visitLog := [t.id, A.id, C.id] } ∧
      executeNode (fuel + 2) B M [t, A, B, C]
          { executionData := [(t.id, vt), (A.id, vA), (C.id, vC1)],
            clock := c0 + 4, visitLog := [t.id, A.id, C.id] } =
        .ok { executionData := [(t.id, vt), (A.id, vA), (C.id, vC2), (B.id, vB)],
              clock := c0 + 6, visitLog := [t.id, A.id, C.id, B.id, C.id] } ∧
      executeNode (fuel + 3) t M [t, A, B, C]
          { executionData := [], clock := c0 + 1, visitLog := [] } =
        .ok { executionData := [(t.id, vt), (A.id, vA), (C.id, vC2), (B.id, vB)],
              clock := c0 + 6, visitLog := [t.id, A.id, C.id, B.id, C.id] } ∧
      envTimestamp vC1 = some (.num (c0 + 3)) ∧
      envTimestamp vC2 = some (.num (c0 + 5)) ∧
      vC1 ≠ vC2 := by
  have hfind_A : List.find? (fun n => n.id == A.id) [t, A, B, C] = some A := by
    simp [List.find?, beq_false_of_ne ne_tA]
  have hfind_B : List.find? (fun n => n.id == B.id) [t, A, B, C] = some B := by
    simp [List.find?, beq_false_of_ne ne_tB, beq_false_of_ne ne_AB]
  have hfind_C : List.find? (fun n => n.id == C.id) [t, A, B, C] = some C := by
    simp [List.find?, beq_false_of_ne ne_tC, beq_false_of_ne ne_AC,
      beq_false_of_ne ne_BC]
  obtain ⟨M, hM, hMin, _⟩ := buildAdjacencyMap_ok [t, A, B, C] [e1, e2, e3, e4]
    (by
      intro e he
      simp only [List.mem_cons, List.not_mem_nil, or_false] at he
      rcases he with rfl | rfl | rfl | rfl <;> simp [h1, h3, h5, h7])
  have hMt : M.lookup t.id = some [A.id, B.id] := by
    rw [hMin t.id (by simp)]
    simp [List.filter_cons, h1, h3, h5, h7, h2, h4,
      beq_false_of_ne (Ne.symm ne_tA), beq_false_of_ne (Ne.symm ne_tB)]
  have hMA : M.lookup A.id = some [C.id] := by
    rw [hMin A.id (by simp)]
    simp [List.filter_cons, h1, h3, h5, h7, h6,
      beq_false_of_ne ne_tA, beq_false_of_ne (Ne.symm ne_AB)]
  have hMB : M.lookup B.id = some [C.id] := by
    rw [hMin B.id (by simp)]
    simp [List.filter_cons, h1, h3, h5, h7, h8,
      beq_false_of_ne ne_tB, beq_false_of_ne ne_AB]
  have hMC : M.lookup C.id = some [] := by
    rw [hMin C.id (by simp)]
    simp [List.filter_cons, h1, h3, h5, h7,
      beq_false_of_ne ne_tC, beq_false_of_ne ne_AC, beq_false_of_ne ne_BC]
  obtain ⟨vt, hvt, -⟩ := dispatchNode_known t [] (c0 + 1) (by simp [ht])
  obtain ⟨vA, hvA, -⟩ := dispatchNode_known A [(t.id, vt)] (c0 + 2) hA
  obtain ⟨vC1, hvC1, hts1⟩ :=
    dispatchNode_known C [(t.id, vt), (A.id, vA)] (c0 + 3) hC
  obtain ⟨vB, hvB, -⟩ :=
    dispatchNode_known B [(t.id, vt), (A.id, vA), (C.id, vC1)] (c0 + 4) hB
  obtain ⟨vC2, hvC2, hts2⟩ :=
    dispatchNode_known C [(t.id, vt), (A.id, vA), (C.id, vC1), (B.id, vB)]
      (c0 + 5) hC
  have hsetA : setEntry [(t.id, vt)] A.id vA = [(t.id, vt), (A.id, vA)] := by
    simp [setEntry, ne_tA]
  have hsetC1 : setEntry [(t.id, vt), (A.id, vA)] C.id vC1 =
      [(t.id, vt), (A.id, vA), (C.id, vC1)] := by
    simp [setEntry, ne_tC, ne_AC]
  have hsetB : setEntry [(t.id, vt), (A.id, vA), (C.id, vC1)] B.id vB =
      [(t.id, vt), (A.id, vA), (C.id, vC1), (B.id, vB)] := by
    simp [setEntry, ne_tB, ne_AB, Ne.symm ne_BC]
  have hsetC2 : setEntry [(t.id, vt), (A.id, vA), (C.id, vC1), (B.id, vB)] C.id vC2 =
      [(t.id, vt), (A.id, vA), (C.id, vC2), (B.id, vB)] := by
    simp [setEntry, ne_tC, ne_AC]
  have run_C1 : executeNode (fuel + 1) C M [t, A, B, C]
      { executionData := [(t.id, vt), (A.id, vA)], clock := c0 + 3,
        visitLog := [t.id, A.id] } =
      .ok { executionData := [(t.id, vt), (A.id, vA), (C.id, vC1)],
            clock := c0 + 4, visitLog := [t.id, A.id, C.id] } := by
    rw [executeNode_succ_ok _ _ _ _ _ vC1 (c0 + 4) hvC1, hMC, hsetC1]
    rfl
  have run_A : executeNode (fuel + 2) A M [t, A, B, C]
      { executionData := [(t.id, vt)], clock := c0 + 2, visitLog := [t.id] } =
      .ok { executionData := [(t.id, vt), (A.id, vA), (C.id, vC1)],
            clock := c0 + 4, visitLog := [t.id, A.id, C.id] } := by
    rw [executeNode_succ_ok _ _ _ _ _ vA (c0 + 3) hvA, hMA, hsetA]
    rw [Option.getD_some]
    rw [runSuccessors_cons_ok _ _ _ _ _ _ C hfind_C run_C1]
    rfl
  have run_C2 : executeNode (fuel + 1) C M [t, A, B, C]
      { executionData := [(t.id, vt), (A.id, vA), (C.id, vC1), (B.id, vB)],
        clock := c0 + 5, visitLog := [t.id, A.id, C.id, B.id] } =
      .ok { executionData := [(t.id, vt), (A.id, vA), (C.id, vC2), (B.id, vB)],
            clock := c0 + 6, visitLog := [t.id, A.id, C.id, B.id, C.id] } := by
    rw [executeNode_succ_ok _ _ _ _ _ vC2 (c0 + 6) hvC2, hMC, hsetC2]
    rfl
  have run_B : executeNode (fuel + 2) B M [t, A, B, C]
      { executionData := [(t.id, vt), (A.id, vA), (C.id, vC1)],
        clock := c0 + 4, visitLog := [t.id, A.id, C.id] } =
      .ok { executionData := [(t.id, vt), (A.id, vA), (C.id, vC2), (B.id, vB)],
            clock := c0 + 6, visitLog := [t.id, A.id, C.id, B.id, C.id] } := by
    rw [executeNode_succ_ok _ _ _ _ _ vB (c0 + 5) hvB, hMB, hsetB]
    rw [Option.getD_some]
    rw [runSuccessors_cons_ok _ _ _ _ _ _ C hfind_C run_C2]
    rfl
  refine ⟨M, vt, vA, vB, vC1, vC2, hM, run_A, run_B, ?_, hts1, hts2, ?_⟩
  · rw [executeNode_succ_ok _ _ _ _ _ vt (c0 + 2) hvt, hMt]
    rw [Option.getD_some]
    rw [runSuccessors_cons_ok _ _ _ _ _ _ A hfind_A run_A]
    rw [runSuccessors_cons_ok _ _ _ _ _ _ B hfind_B run_B]
    rfl
  · intro heq
    rw [heq, hts2] at hts1
    simp only [Option.some.injEq, Value.num.injEq] at hts1
    omega

/-! ## Symbolic runs: unknown node category -/
lemma unknown_type_walk (t bad after : Node) (e1 e2 : Edge) (fuel c0 : Nat)
    (ht : t.node_type = "trigger")
    (hbad : bad.node_type ∉ (["trigger", "data", "transform", "action"] : List String))
    (h1 : e1.source_node_id = t.id) (h2 : e1.target_node_id = bad.id)
    (h3 : e2.source_node_id = bad.id) (h4 : e2.target_node_id = after.id)
    (ne_tb : t.id ≠ bad.id) :
    ∃ M vt,
      buildAdjacencyMap [t, bad, after] [e1, e2] = .ok M ∧
      executeNode (fuel + 2) t M [t, bad, after]
          { executionData := [], clock := c0 + 1, visitLog := [] } =
        .err ("Unknown node type: " ++ bad.node_type)
          { executionData := [(t.id, vt)], clock := c0 + 2,
            visitLog := [t.id, bad.id] } := by
  have hfind_bad : List.find? (fun n => n.id == bad.id) [t, bad, after] = some bad := by
    simp [List.find?, beq_false_of_ne ne_tb]
  obtain ⟨M, hM, hMin, _⟩ := buildAdjacencyMap_ok [t, bad, after] [e1, e2]
    (by
      intro e he
      simp only [List.mem_cons, List.not_mem_nil, or_false] at he
      rcases he with rfl | rfl <;> simp [h1, h3])
  have hMt : M.lookup t.id = some [bad.id] := by
    rw [hMin t.id (by simp)]
    simp [List.filter_cons, h1, h3, h2, beq_false_of_ne (Ne.symm ne_tb)]
  obtain ⟨vt, hvt, -⟩ := dispatchNode_known t [] (c0 + 1) (by simp [ht])
  refine ⟨M, vt, hM, ?_⟩
  rw [executeNode_succ_ok _ _ _ _ _ vt (c0 + 2) hvt, hMt]
  rw [Option.getD_some]
  rw [runSuccessors_cons_err _ _ _ _ _ bad _ _ hfind_bad
    (executeNode_succ_err _ _ _ _ _ _ (dispatchNode_unknown bad _ _ hbad))]
  rfl

/-! ## Cycles and termination -/

lemma runSuccessors_cons_diverge (exec : Node → EngineState → ExecResult)
    (nodes : List Node) (nid : String) (rest : List String) (st : EngineState)
    (nd : Node)
    (h : nodes.find? (fun n => n.id == nid) = some nd) (hx : exec nd st = .diverge) :
    runSuccessors exec nodes (nid :: rest) st = .diverge := by
  simp [runSuccessors, h, hx]

-- every successor recorded by a successful adjacency build comes from an edge
lemma adjEdges_lookup_sub (edges : List Edge) :
    ∀ (m M : List (String × List String)),
      edges.foldlM pushEdge m = .ok M →
      ∀ u l v, M.lookup u = some l → v ∈ l →
        (∃ l0, m.lookup u = some l0 ∧ v ∈ l0) ∨ edgeStep edges u v := by
  induction edges with
  | nil =>
      intro m M hok u l v hl hv
      cases hok
      exact Or.inl ⟨l, hl, hv⟩
  | cons e rest ih =>
      intro m M hok u l v hl hv
      rw [List.foldlM_cons] at hok
      cases hm : m.lookup e.source_node_id with
      | none =>
          rw [show pushEdge m e = .error
            "Cannot read properties of undefined (reading 'push')" from by
              simp [pushEdge, hm]] at hok
          exact absurd hok (by simp [Bind.bind, Except.bind])
      | some l0 =>
          rw [show pushEdge m e = .ok (setEntry m e.source_node_id
            (l0 ++ [e.target_node_id])) from by simp [pushEdge, hm]] at hok
          have hok' : rest.foldlM pushEdge (setEntry m e.source_node_id
              (l0 ++ [e.target_node_id])) = .ok M := by
            simpa [Bind.bind, Except.bind] using hok
          rcases ih _ _ hok' u l v hl hv with ⟨l1, hl1, hv1⟩ | hstep
          · rw [lookup_setEntry] at hl1
            by_cases hu : u = e.source_node_id
            · rw [if_pos hu] at hl1
              cases hl1
              rcases List.mem_append.mp hv1 with hv2 | hv2
              · exact Or.inl ⟨l0, hu ▸ hm, hv2⟩
              · simp only [List.mem_singleton] at hv2
                exact Or.inr ⟨e, List.mem_cons_self _ _, hu.symm, hv2.symm⟩
            · rw [if_neg hu] at hl1
              exact Or.inl ⟨l1, hl1, hv1⟩
          · obtain ⟨e', he', hsrc, htgt⟩ := hstep
            exact Or.inr ⟨e', List.mem_cons_of_mem _ he', hsrc, htgt⟩

-- a successful adjacency build only records edge successors
lemma buildAdjacencyMap_step (nodes : List Node) (edges : List Edge)
    (M : List (String × List String))
    (hM : buildAdjacencyMap nodes edges = .ok M) :
    ∀ u v, v ∈ (M.lookup u).getD [] → edgeStep edges u v := by
  intro u v hv
  cases hMu : M.lookup u with
  | none => rw [hMu] at hv; simp at hv
  | some l =>
      rw [hMu] at hv
      simp only [Option.getD_some] at hv
      unfold buildAdjacencyMap at hM
      rcases adjEdges_lookup_sub edges _ M hM u l v hMu hv with ⟨l0, hl0, hv0⟩ | h
      · rw [adjInit_lookup] at hl0
        by_cases hmem : u ∈ nodes.map Node.id
        · rw [if_pos hmem] at hl0
          cases hl0
          simp at hv0
        · rw [if_neg hmem] at hl0
          simp [List.lookup] at hl0
      · exact h

-- acyclic edge set: the walker cannot exhaust fuel, given enough fuel
lemma executeNode_acyclic_aux (edges : List Edge) (adj : List (String × List String))
    (nodes : List Node)
    (hstep : ∀ u v, v ∈ (adj.lookup u).getD [] → edgeStep edges u v)
    (hacyc : AcyclicEdges edges) :
    ∀ fuel (path : List String) (node : Node) (st : EngineState),
      node ∈ nodes →
      (node.id :: path).Nodup →
      (∀ x ∈ path, Relation.TransGen (edgeStep edges) x node.id) →
      (∀ x ∈ node.id :: path, x ∈ nodes.map Node.id) →
      (nodes.map Node.id).dedup.length < fuel + (node.id :: path).length →
      executeNode fuel node adj nodes st ≠ .diverge := by
  intro fuel
  induction fuel with
  | zero =>
      intro path node st _ hnd _ hids hcard _
      have hsub : (node.id :: path) ⊆ (nodes.map Node.id).dedup := by
        intro x hx
        exact List.mem_dedup.mpr (hids x hx)
      have hlen := (hnd.subperm hsub).length_le
      omega
  | succ fuel ih =>
      intro path node st hmem hnd hpath hids hcard hdiv
      rw [executeNode_succ] at hdiv
      cases hd : dispatchNode node st.executionData st.clock with
      | error msg => rw [hd] at hdiv; exact absurd hdiv (by simp)
      | ok p =>
          obtain ⟨result, clock'⟩ := p
          rw [hd] at hdiv
          obtain ⟨nid, hnid, nd, st2, hfind, hrec⟩ :=
            runSuccessors_diverge _ _ _ _ hdiv
          have hndmem : nd ∈ nodes := List.mem_of_find?_eq_some hfind
          have hndid : nd.id = nid := by
            have := List.find?_some hfind
            simpa [beq_iff_eq] using this
          subst hndid
          have hedge : edgeStep edges node.id nd.id := hstep node.id nd.id hnid
          have hfresh : nd.id ∉ node.id :: path := by
            intro hin
            rcases List.mem_cons.mp hin with heq | hin2
            · rw [heq] at hedge
              exact hacyc node.id (Relation.TransGen.single hedge)
            · exact hacyc nd.id
                (Relation.TransGen.tail (hpath nd.id hin2) hedge)
          refine ih (node.id :: path) nd st2 hndmem ?_ ?_ ?_ ?_ hrec
          · exact List.nodup_cons.mpr ⟨hfresh, hnd⟩
          · intro x hx
            rcases List.mem_cons.mp hx with heq | hx2
            · rw [heq]
              exact Relation.TransGen.single hedge
            · exact Relation.TransGen.tail (hpath x hx2) hedge
          · intro x hx
            rcases List.mem_cons.mp hx with heq | hx2
            · rw [heq]
              exact List.mem_map_of_mem Node.id hndmem
            · exact hids x hx2
          · simp only [List.length_cons] at hcard ⊢
            omega

-- executeWorkflow only diverges through the walker
lemma executeWorkflow_diverge_inv (insertFails : Bool) (execId wfId : String)
    (wf? : Option Workflow) (nodes : List Node) (edges : List Edge)
    (fuel c0 : Nat)
    (h : executeWorkflow insertFails execId wfId wf? nodes edges fuel c0 = .diverge) :
    ∃ wf trigger M, wf? = some wf ∧
      nodes.find? (fun n => n.node_type == "trigger") = some trigger ∧
      buildAdjacencyMap nodes edges = .ok M ∧
      executeNode fuel trigger M nodes
        { executionData := [], clock := c0 + 1, visitLog := [] } = .diverge := by
  unfold executeWorkflow at h
  dsimp only at h
  cases wf? with
  | none => simp [failRun, logExecution] at h
  | some wf =>
      dsimp only at h
      cases hen : wf.enabled with
      | false => rw [hen] at h; simp [failRun, logExecution] at h
      | true =>
          rw [hen] at h
          simp only [Bool.not_true] at h
          rw [if_neg Bool.false_ne_true] at h
          cases hemp : nodes.isEmpty with
          | true => rw [hemp] at h; simp [failRun, logExecution] at h
          | false =>
              rw [hemp] at h
              rw [if_neg Bool.false_ne_true] at h
              cases hfind : nodes.find? (fun n => n.node_type == "trigger") with
              | none => rw [hfind] at h; simp [failRun, logExecution] at h
              | some trigger =>
                  rw [hfind] at h
                  dsimp only at h
                  cases hadj : buildAdjacencyMap nodes edges with
                  | error msg => rw [hadj] at h; simp [failRun, logExecution] at h
                  | ok M =>
                      rw [hadj] at h
                      dsimp only at h
                      cases hrun : executeNode fuel trigger M nodes
                          { executionData := [], clock := c0 + 1, visitLog := [] } with
                      | ok st => rw [hrun] at h; simp [logExecution] at h
                      | err msg st =>
                          rw [hrun] at h; simp [failRun, logExecution] at h
                      | diverge => exact ⟨wf, trigger, M, rfl, rfl, rfl, hrun⟩

lemma executeNode_acyclic_no_diverge (nodes : List Node) (edges : List Edge)
    (M : List (String × List String)) (node : Node) (st : EngineState)
    (hM : buildAdjacencyMap nodes edges = .ok M) (hmem : node ∈ nodes)
    (hacyc : AcyclicEdges edges) :
    executeNode ((nodes.map Node.id).dedup.length + 1) node M nodes st ≠
      .diverge := by
  refine executeNode_acyclic_aux edges M nodes (buildAdjacencyMap_step nodes edges M hM)
    hacyc _ [] node st hmem (by simp) (by simp) ?_ (by omega)
  intro x hx
  simp only [List.mem_cons, List.not_mem_nil, or_false] at hx
  subst hx
  exact List.mem_map_of_mem Node.id hmem

lemma executeWorkflow_acyclic_no_diverge (insertFails : Bool) (execId wfId : String)
    (wf? : Option Workflow) (nodes : List Node) (edges : List Edge) (c0 : Nat)
    (hacyc : AcyclicEdges edges) :
    ∃ fuel, executeWorkflow insertFails execId wfId wf? nodes edges fuel c0 ≠
      .diverge := by
  refine ⟨(nodes.map Node.id).dedup.length + 1, fun h => ?_⟩
  obtain ⟨wf, trigger, M, -, hfind, hadj, hrun⟩ :=
    executeWorkflow_diverge_inv _ _ _ _ _ _ _ _ h
  exact executeNode_acyclic_no_diverge nodes edges M trigger _ hadj
    (List.mem_of_find?_eq_some hfind) hacyc hrun

lemma cycAdj_ok : buildAdjacencyMap cycNodes cycEdges = .ok cycAdj := rfl

lemma cyc_xy_diverge (fuel : Nat) :
    (∀ st, executeNode fuel cycX cycAdj cycNodes st = .diverge) ∧
    (∀ st, executeNode fuel cycY cycAdj cycNodes st = .diverge) := by
  induction fuel with
  | zero => exact ⟨fun st => rfl, fun st => rfl⟩
  | succ fuel ih =>
      constructor
      · intro st
        rw [executeNode_succ_ok fuel cycX cycAdj cycNodes st
          (executeTransform cycX st.executionData st.clock).1
          (executeTransform cycX st.executionData st.clock).2 rfl]
        exact runSuccessors_cons_diverge _ _ _ _ _ cycY rfl (ih.2 _)
      · intro st
        rw [executeNode_succ_ok fuel cycY cycAdj cycNodes st
          (executeTransform cycY st.executionData st.clock).1
          (executeTransform cycY st.executionData st.clock).2 rfl]
        exact runSuccessors_cons_diverge _ _ _ _ _ cycX rfl (ih.1 _)

lemma cyc_walk_diverge (fuel : Nat) (st : EngineState) :
    executeNode fuel cycT cycAdj cycNodes st = .diverge := by
  cases fuel with
  | zero => rfl
  | succ fuel =>
      rw [executeNode_succ_ok fuel cycT cycAdj cycNodes st
        (executeTrigger cycT st.clock).1 (executeTrigger cycT st.clock).2 rfl]
      exact runSuccessors_cons_diverge _ _ _ _ _ cycX rfl ((cyc_xy_diverge fuel).1 _)

lemma cyc_run_diverge (insertFails : Bool) (execId wfId : String) (fuel c0 : Nat) :
    executeWorkflow insertFails execId wfId (some cycWf) cycNodes cycEdges fuel c0 =
      .diverge := by
  rw [executeWorkflow_walk insertFails execId wfId cycWf cycNodes cycEdges fuel c0
    cycT cycAdj rfl (by simp [cycNodes]) rfl cycAdj_ok]
  rw [cyc_walk_diverge]

/-! ## Run outcome shape -/

lemma executeWorkflow_shape (execId wfId : String) (wf? : Option Workflow)
    (nodes : List Node) (edges : List Edge) (fuel c0 : Nat) :
    (∃ msg endT, ∀ b, executeWorkflow b execId wfId wf? nodes edges fuel c0 =
      .ok { success := false, executionId := execId, executionData := none,
            error := some msg }
        (if b then none
         else some { id := execId, workflow_id := wfId, status := "failed",
                     error_message := some msg, execution_data := none,
                     started_at := c0, ended_at := endT })) ∨
    (∃ st : EngineState, ∀ b, executeWorkflow b execId wfId wf? nodes edges fuel c0 =
      .ok { success := true, executionId := execId,
            executionData := some st.executionData, error := none }
        (if b then none
         else some { id := execId, workflow_id := wfId, status := "completed",
                     error_message := none,
                     execution_data := some st.executionData,
                     started_at := c0, ended_at := st.clock })) ∨
    (∀ b, executeWorkflow b execId wfId wf? nodes edges fuel c0 = .diverge) := by
  cases wf? with
  | none =>
      refine Or.inl ⟨"Workflow not found", c0 + 1, fun b => ?_⟩
      unfold executeWorkflow failRun logExecution
      dsimp only
  | some wf =>
      cases hen : wf.enabled with
      | false =>
          refine Or.inl ⟨"Workflow is disabled", c0 + 1, fun b => ?_⟩
          unfold executeWorkflow failRun logExecution
          dsimp only
          rw [hen]
          rfl
      | true =>
          cases hemp : nodes.isEmpty with
          | true =>
              refine Or.inl ⟨"Workflow has no nodes", c0 + 1, fun b => ?_⟩
              unfold executeWorkflow failRun logExecution
              dsimp only
              rw [hen, hemp]
              rfl
          | false =>
              cases hfind : nodes.find? (fun n => n.node_type == "trigger") with
              | none =>
                  refine Or.inl
                    ⟨"No trigger node found. Workflow must start with a trigger",
                      c0 + 1, fun b => ?_⟩
                  unfold executeWorkflow failRun logExecution
                  dsimp only
                  rw [hen, hemp, hfind]
                  rfl
              | some trigger =>
                  cases hadj : buildAdjacencyMap nodes edges with
                  | error msg =>
                      refine Or.inl ⟨msg, c0 + 1, fun b => ?_⟩
                      unfold executeWorkflow failRun logExecution
                      dsimp only
                      rw [hen, hemp, hfind, hadj]
                      rfl
                  | ok M =>
                      cases hrun : executeNode fuel trigger M nodes
                          { executionData := [], clock := c0 + 1,
                            visitLog := [] } with
                      | ok st =>
                          refine Or.inr (Or.inl ⟨st, fun b => ?_⟩)
                          unfold executeWorkflow logExecution
                          dsimp only
                          rw [hen, hemp, hfind, hadj]
                          dsimp only
                          rw [hrun]
                          rfl
                      | err msg stE =>
                          refine Or.inl ⟨msg, stE.clock, fun b => ?_⟩
                          unfold executeWorkflow failRun logExecution
                          dsimp only
                          rw [hen, hemp, hfind, hadj]
                          dsimp only
                          rw [hrun]
                          rfl
                      | diverge =>
                          refine Or.inr (Or.inr (fun b => ?_))
                          unfold executeWorkflow
                          dsimp only
                          rw [hen, hemp, hfind, hadj]
                          dsimp only
                          rw [hrun]
                          rfl

/-! ## Claims -/

/-- C1: for every workflow whose graph is the linear chain
trigger→data→transform→action (an enabled workflow over four nodes with
distinct identifiers), `executeWorkflow` visits the four nodes in exactly
that order — depth-first pre-order from the trigger, witnessed by the
visit log — and returns success with a final execution context containing
exactly four entries, keyed by the four node identifiers in that order. -/
theorem claim_C1_linear_chain (insertFails : Bool) (execId wfId : String)
    (wf : Workflow) (t d tr a : Node) (e1 e2 e3 : Edge) (fuel c0 : Nat)
    (hwf : wf.enabled = true)
    (ht : t.node_type = "trigger") (hd : d.node_type = "data")
    (htr : tr.node_type = "transform") (ha : a.node_type = "action")
    (h1 : e1.source_node_id = t.id) (h2 : e1.target_node_id = d.id)
    (h3 : e2.source_node_id = d.id) (h4 : e2.target_node_id = tr.id)
    (h5 : e3.source_node_id = tr.id) (h6 : e3.target_node_id = a.id)
    (hnd : [t.id, d.id, tr.id, a.id].Nodup) :
    ∃ ctx rec st M,
      executeWorkflow insertFails execId wfId (some wf) [t, d, tr, a]
          [e1, e2, e3] (fuel + 4) c0 =
        .ok { success := true, executionId := execId,
              executionData := some ctx, error := none } rec ∧
      ctx.map Prod.fst = [t.id, d.id, tr.id, a.id] ∧
      buildAdjacencyMap [t, d, tr, a] [e1, e2, e3] = .ok M ∧
      executeNode (fuel + 4) t M [t, d, tr, a]
        { executionData := [], clock := c0 + 1, visitLog := [] } = .ok st ∧
      st.visitLog = [t.id, d.id, tr.id, a.id] ∧
      st.executionData = ctx := by
  simp only [List.nodup_cons, List.mem_cons, List.not_mem_nil, or_false,
    not_or, List.nodup_nil, and_true] at hnd
  obtain ⟨⟨ne_td, ne_ttr, ne_ta⟩, ⟨ne_dtr, ne_da⟩, ne_tra, -⟩ := hnd
  obtain ⟨M, vt, vd, vtr, va, hM, hrun⟩ :=
    linear_chain_walk t d tr a e1 e2 e3 fuel c0 ht hd htr ha
      h1 h2 h3 h4 h5 h6 ne_td ne_ttr ne_ta ne_dtr ne_da ne_tra
  have htrig : List.find? (fun n => n.node_type == "trigger") [t, d, tr, a] =
      some t := by
    simp [List.find?, ht]
  refine ⟨[(t.id, vt), (d.id, vd), (tr.id, vtr), (a.id, va)],
    (if insertFails then none
     else some { id := execId, workflow_id := wfId, status := "completed",
                 error_message := none,
                 execution_data :=
                   some [(t.id, vt), (d.id, vd), (tr.id, vtr), (a.id, va)],
                 started_at := c0, ended_at := c0 + 5 }), _, M,
    ?_, by simp, hM, hrun, rfl, rfl⟩
  rw [executeWorkflow_walk insertFails execId wfId wf _ _ _ c0 t M hwf
    (by simp) htrig hM, hrun]

/-- Witness for C1 at a concrete enabled weather→transform→email chain. -/
theorem claim_C1_linear_chain_witness :
    ∃ ctx rec st M,
      executeWorkflow false "exec-1" "w" (some chainWf)
          [chainT, chainD, chainTr, chainA] [chainE1, chainE2, chainE3]
          (0 + 4) 0 =
        .ok { success := true, executionId := "exec-1",
              executionData := some ctx, error := none } rec ∧
      ctx.map Prod.fst = [chainT.id, chainD.id, chainTr.id, chainA.id] ∧
      buildAdjacencyMap [chainT, chainD, chainTr, chainA]
        [chainE1, chainE2, chainE3] = .ok M ∧
      executeNode (0 + 4) chainT M [chainT, chainD, chainTr, chainA]
        { executionData := [], clock := 0 + 1, visitLog := [] } = .ok st ∧
      st.visitLog = [chainT.id, chainD.id, chainTr.id, chainA.id] ∧
      st.executionData = ctx :=
  claim_C1_linear_chain false "exec-1" "w" chainWf chainT chainD chainTr chainA
    chainE1 chainE2 chainE3 0 0 rfl rfl rfl rfl rfl rfl rfl rfl rfl rfl rfl
    (by decide)

/-- C2: preconditions are checked in order — workflow exists, workflow is
enabled, workflow has at least one node, workflow has a trigger node —
each a distinct fatal failure; in particular, for every workflow with
zero trigger nodes, `executeWorkflow` returns failure with the "no
trigger" message, attempts no traversal (the result does not depend on
the fuel or the edges), and the persisted failed execution record
carries no context payload. -/
theorem claim_C2_preconditions (insertFails : Bool) (execId wfId : String)
    (nodes : List Node) (edges : List Edge) (fuel c0 : Nat) :
    (executeWorkflow insertFails execId wfId none nodes edges fuel c0 =
      .ok { success := false, executionId := execId, executionData := none,
            error := some "Workflow not found" }
        (if insertFails then none
         else some { id := execId, workflow_id := wfId, status := "failed",
                     error_message := some "Workflow not found",
                     execution_data := none,
                     started_at := c0, ended_at := c0 + 1 })) ∧
    (∀ wf : Workflow, wf.enabled = false →
      executeWorkflow insertFails execId wfId (some wf) nodes edges fuel c0 =
        .ok { success := false, executionId := execId, executionData := none,
              error := some "Workflow is disabled" }
          (if insertFails then none
           else some { id := execId, workflow_id := wfId, status := "failed",
                       error_message := some "Workflow is disabled",
                       execution_data := none,
                       started_at := c0, ended_at := c0 + 1 })) ∧
    (∀ wf : Workflow, wf.enabled = true → nodes = [] →
      executeWorkflow insertFails execId wfId (some wf) nodes edges fuel c0 =
        .ok { success := false, executionId := execId, executionData := none,
              error := some "Workflow has no nodes" }
          (if insertFails then none
           else some { id := execId, workflow_id := wfId, status := "failed",
                       error_message := some "Workflow has no nodes",
                       execution_data := none,
                       started_at := c0, ended_at := c0 + 1 })) ∧
    (∀ wf : Workflow, wf.enabled = true → nodes ≠ [] →
      (∀ n ∈ nodes, n.node_type ≠ "trigger") →
      executeWorkflow insertFails execId wfId (some wf) nodes edges fuel c0 =
        .ok { success := false, executionId := execId, executionData := none,
              error :=
                some "No trigger node found. Workflow must start with a trigger" }
          (if insertFails then none
           else some { id := execId, workflow_id := wfId, status := "failed",
                       error_message :=
                         some "No trigger node found. Workflow must start with a trigger",
                       execution_data := none,
                       started_at := c0, ended_at := c0 + 1 })) := by
  refine ⟨executeWorkflow_notFound insertFails execId wfId nodes edges fuel c0,
    fun wf hwf => executeWorkflow_disabled insertFails execId wfId wf nodes edges
      fuel c0 hwf,
    fun wf hwf hn => ?_,
    fun wf hwf hne hnt => executeWorkflow_noTrigger insertFails execId wfId wf
      nodes edges fuel c0 hwf hne hnt⟩
  subst hn
  exact executeWorkflow_noNodes insertFails execId wfId wf edges fuel c0 hwf

/-- Witness for C2 at a concrete store state: a trigger-less single-node
workflow, plus the other three precondition failures. -/
theorem claim_C2_preconditions_witness :
    ((chainWf.enabled = true) ∧ ([chainD] ≠ ([] : List Node)) ∧
      (∀ n ∈ [chainD], n.node_type ≠ "trigger")) ∧
    (executeWorkflow false "exec-2" "w" (some chainWf) [chainD] [] 7 0 =
      .ok { success := false, executionId := "exec-2", executionData := none,
            error :=
              some "No trigger node found. Workflow must start with a trigger" }
        (some { id := "exec-2", workflow_id := "w", status := "failed",
                error_message :=
                  some "No trigger node found. Workflow must start with a trigger",
                execution_data := none, started_at := 0, ended_at := 0 + 1 })) := by
  constructor
  · exact ⟨rfl, by simp, by decide⟩
  · exact (claim_C2_preconditions false "exec-2" "w" [chainD] [] 7 0).2.2.2 chainWf
      rfl (by simp) (by decide)

/-- C3: for every diamond-shaped graph (trigger→A, trigger→B, A→C, B→C,
distinct ids, recognized categories, enabled workflow), the run succeeds;
C is re-executed once per incoming path (it appears twice in the visit
log), its context entry is overwritten on the re-execution, and C's final
context entry is the envelope produced by the path traversed last (the
B path), which differs from the envelope the A path wrote first. -/
theorem claim_C3_diamond (insertFails : Bool) (execId wfId : String)
    (wf : Workflow) (t A B C : Node) (e1 e2 e3 e4 : Edge) (fuel c0 : Nat)
    (hwf : wf.enabled = true)
    (ht : t.node_type = "trigger")
    (hA : A.node_type ∈ (["trigger", "data", "transform", "action"] : List String))
    (hB : B.node_type ∈ (["trigger", "data", "transform", "action"] : List String))
    (hC : C.node_type ∈ (["trigger", "data", "transform", "action"] : List String))
    (h1 : e1.source_node_id = t.id) (h2 : e1.target_node_id = A.id)
    (h3 : e2.source_node_id = t.id) (h4 : e2.target_node_id = B.id)
    (h5 : e3.source_node_id = A.id) (h6 : e3.target_node_id = C.id)
    (h7 : e4.source_node_id = B.id) (h8 : e4.target_node_id = C.id)
    (hnd : [t.id, A.id, B.id, C.id].Nodup) :
    ∃ M vt vA vB vC1 vC2 rec,
      buildAdjacencyMap [t, A, B, C] [e1, e2, e3, e4] = .ok M ∧
      executeNode (fuel + 2) A M [t, A, B, C]
          { executionData := [(t.id, vt)], clock := c0 + 2, visitLog := [t.id] } =
        .ok { executionData := [(t.id, vt), (A.id, vA), (C.id, vC1)],
              clock := c0 + 4, visitLog := [t.id, A.id, C.id] } ∧
      executeNode (fuel + 2) B M [t, A, B, C]
          { executionData := [(t.id, vt), (A.id, vA), (C.id, vC1)],
            clock := c0 + 4, visitLog := [t.id, A.id, C.id] } =
        .ok { executionData := [(t.id, vt), (A.id, vA), (C.id, vC2), (B.id, vB)],
              clock := c0 + 6, visitLog := [t.id, A.id, C.id, B.id, C.id] } ∧
      vC1 ≠ vC2 ∧
      executeWorkflow insertFails execId wfId (some wf) [t, A, B, C]
          [e1, e2, e3, e4] (fuel + 3) c0 =
        .ok { success := true, executionId := execId,
              executionData :=
                some [(t.id, vt), (A.id, vA), (C.id, vC2), (B.id, vB)],
              error := none } rec ∧
      ([(t.id, vt), (A.id, vA), (C.id, vC2), (B.id, vB)] :
          List (String × Value)).lookup C.id = some vC2 := by
  simp only [List.nodup_cons, List.mem_cons, List.not_mem_nil, or_false,
    not_or, List.nodup_nil, and_true] at hnd
  obtain ⟨⟨ne_tA, ne_tB, ne_tC⟩, ⟨ne_AB, ne_AC⟩, ne_BC, -⟩ := hnd
  obtain ⟨M, vt, vA, vB, vC1, vC2, hM, runA, runB, runT, hts1, hts2, hne⟩ :=
    diamond_walk t A B C e1 e2 e3 e4 fuel c0 ht hA hB hC
      h1 h2 h3 h4 h5 h6 h7 h8 ne_tA ne_tB ne_tC ne_AB ne_AC ne_BC
  have htrig : List.find? (fun n => n.node_type == "trigger") [t, A, B, C] =
      some t := by
    simp [List.find?, ht]
  refine ⟨M, vt, vA, vB, vC1, vC2,
    (if insertFails then none
     else some { id := execId, workflow_id := wfId, status := "completed",
                 error_message := none,
                 execution_data :=
                   some [(t.id, vt), (A.id, vA), (C.id, vC2), (B.id, vB)],
                 started_at := c0, ended_at := c0 + 6 }),
    hM, runA, runB, hne, ?_, ?_⟩
  · rw [executeWorkflow_walk insertFails execId wfId wf _ _ _ c0 t M hwf
      (by simp) htrig hM, runT]
  · simp [List.lookup, beq_false_of_ne (Ne.symm ne_tC),
      beq_false_of_ne (Ne.symm ne_AC)]

/-- Witness for C3 at a concrete diamond of data nodes joined by a
transform node. -/
theorem claim_C3_diamond_witness :
    ∃ M vt vA vB vC1 vC2 rec,
      buildAdjacencyMap [diaT, diaA, diaB, diaC] diaEdges = .ok M ∧
      executeNode (0 + 2) diaA M [diaT, diaA, diaB, diaC]
          { executionData := [(diaT.id, vt)], clock := 0 + 2,
            visitLog := [diaT.id] } =
        .ok { executionData := [(diaT.id, vt), (diaA.id, vA), (diaC.id, vC1)],
              clock := 0 + 4, visitLog := [diaT.id, diaA.id, diaC.id] } ∧
      executeNode (0 + 2) diaB M [diaT, diaA, diaB, diaC]
          { executionData := [(diaT.id, vt), (diaA.id, vA), (diaC.id, vC1)],
            clock := 0 + 4, visitLog := [diaT.id, diaA.id, diaC.id] } =
        .ok { executionData :=
                [(diaT.id, vt), (diaA.id, vA), (diaC.id, vC2), (diaB.id, vB)],
              clock := 0 + 6,
              visitLog := [diaT.id, diaA.id, diaC.id, diaB.id, diaC.id] } ∧
      vC1 ≠ vC2 ∧
      executeWorkflow false "exec-3" "w" (some diaWf) [diaT, diaA, diaB, diaC]
          diaEdges (0 + 3) 0 =
        .ok { success := true, executionId := "exec-3",
              executionData :=
                some [(diaT.id, vt), (diaA.id, vA), (diaC.id, vC2), (diaB.id, vB)],
              error := none } rec ∧
      ([(diaT.id, vt), (diaA.id, vA), (diaC.id, vC2), (diaB.id, vB)] :
          List (String × Value)).lookup diaC.id = some vC2 :=
  claim_C3_diamond false "exec-3" "w" diaWf diaT diaA diaB diaC
    diaEdges[0] diaEdges[1] diaEdges[2] diaEdges[3] 0 0
    rfl rfl (by decide) (by decide) (by decide)
    rfl rfl rfl rfl rfl rfl rfl rfl (by decide)

/-- C4 counterexample: in the concrete diamond run, C's context entry
after the A branch (its first visit) differs from C's entry in the final
context — the entry was modified during the run, refuting "written
exactly once and never modified afterwards". The third conjunct checks
that the two partial walks compose to the full run from the trigger. -/
theorem claim_C4_counterexample :
    ∃ stA stFin vC1 vC2,
      executeNode 2 diaA diaAdj diaNodes
          { executionData := [("T", (executeTrigger diaT 1).1)], clock := 2,
            visitLog := ["T"] } = .ok stA ∧
      executeNode 2 diaB diaAdj diaNodes stA = .ok stFin ∧
      executeNode 3 diaT diaAdj diaNodes
          { executionData := [], clock := 1, visitLog := [] } = .ok stFin ∧
      stA.executionData.lookup "C" = some vC1 ∧
      stFin.executionData.lookup "C" = some vC2 ∧
      vC1 ≠ vC2 := by
  refine ⟨_, _, _, _, rfl, rfl, rfl, rfl, rfl, fun h => ?_⟩
  have h2 := congrArg envTimestamp h
  simp [envTimestamp, getField, List.lookup, Option.orElse] at h2

/-- C4 (amended): during a single run the execution context accumulates:
an entry present in the state is never removed by any further traversal —
though a re-visited node's entry is overwritten rather than left
untouched (see the counterexample). -/
theorem claim_C4_context_never_removed (fuel : Nat) (node : Node)
    (adj : List (String × List String)) (nodes : List Node)
    (st st' : EngineState)
    (h : executeNode fuel node adj nodes st = .ok st') :
    ∀ k v, st.executionData.lookup k = some v →
      ∃ v', st'.executionData.lookup k = some v' := by
  refine executeNode_ok_rel
    (R := fun s s' => ∀ k v, s.executionData.lookup k = some v →
      ∃ v', s'.executionData.lookup k = some v')
    (fun s k v hv => ⟨v, hv⟩)
    (fun a b c hab hbc k v hv => ?_)
    (fun nd s result clock' k v hv => ?_)
    fuel node adj nodes st st' h
  · obtain ⟨v1, h1⟩ := hab k v hv
    exact hbc k v1 h1
  · simp only [lookup_setEntry]
    by_cases hk : k = nd.id
    · exact ⟨result, by rw [if_pos hk]⟩
    · rw [if_neg hk]
      exact ⟨v, hv⟩

/-- Witness for C4 (amended): a pre-existing entry survives a concrete
one-node walk. -/
theorem claim_C4_context_never_removed_witness :
    ∃ v', (([("z", Value.null), ("T", (executeTrigger diaT 0).1)] :
      List (String × Value)).lookup "z") = some v' :=
  claim_C4_context_never_removed 1 diaT [("T", [])] diaNodes
    { executionData := [("z", .null)], clock := 0, visitLog := [] }
    { executionData := [("z", .null), ("T", (executeTrigger diaT 0).1)],
      clock := 1, visitLog := ["T"] }
    rfl "z" .null rfl

/-- C5 counterexample: an edge whose source id references no node makes
`buildAdjacencyMap` throw (the JS `map[undefined].push` TypeError) — it
does not tolerate that edge, refuting "does not fail for any node set
and edge set". -/
theorem claim_C5_counterexample :
    buildAdjacencyMap [chainT]
      [{ id := "e", workflow_id := "w", source_node_id := "ghost",
         target_node_id := "t" }] =
      .error "Cannot read properties of undefined (reading 'push')" := rfl

/-- C5 (amended): whenever every edge source references an existing node
id, `buildAdjacencyMap` does not fail: it maps every node identifier to
the ordered list of its single-edge successors (edge insertion order),
maps nodes with no outgoing edges to the empty list, and tolerates an
edge whose target references a nonexistent node id by recording a
dangling successor (the targets are recorded unchecked); the walker then
skips such an unresolvable successor. An edge whose source id is
nonexistent instead makes `buildAdjacencyMap` throw (see the
counterexample). -/
theorem claim_C5_adjacency_builder (nodes : List Node) (edges : List Edge)
    (hsrc : ∀ e ∈ edges, e.source_node_id ∈ nodes.map Node.id) :
    (∃ M, buildAdjacencyMap nodes edges = .ok M ∧
      (∀ id, id ∈ nodes.map Node.id →
        M.lookup id = some ((edges.filter
          (fun e => e.source_node_id == id)).map Edge.target_node_id)) ∧
      (∀ id, id ∉ nodes.map Node.id → M.lookup id = none)) ∧
    (∀ (exec : Node → EngineState → ExecResult) (nid : String)
        (rest : List String) (st : EngineState),
      nodes.find? (fun n => n.id == nid) = none →
      runSuccessors exec nodes (nid :: rest) st =
        runSuccessors exec nodes rest st) :=
  ⟨buildAdjacencyMap_ok nodes edges hsrc,
   fun exec nid rest st h => runSuccessors_cons_none exec nodes nid rest st h⟩

/-- Witness for C5 (amended) on a two-node graph with one real edge and
one dangling-target edge. -/
theorem claim_C5_adjacency_builder_witness :
    (∃ M, buildAdjacencyMap [chainT, chainD]
        [chainE1,
         { id := "e9", workflow_id := "w", source_node_id := "d",
           target_node_id := "missing" }] = .ok M ∧
      (∀ id, id ∈ ([chainT, chainD].map Node.id) →
        M.lookup id = some ((([chainE1,
          { id := "e9", workflow_id := "w", source_node_id := "d",
            target_node_id := "missing" }] : List Edge).filter
          (fun e => e.source_node_id == id)).map Edge.target_node_id)) ∧
      (∀ id, id ∉ ([chainT, chainD].map Node.id) → M.lookup id = none)) ∧
    (∀ (exec : Node → EngineState → ExecResult) (nid : String)
        (rest : List String) (st : EngineState),
      ([chainT, chainD].find? (fun n => n.id == nid)) = none →
      runSuccessors exec [chainT, chainD] (nid :: rest) st =
        runSuccessors exec [chainT, chainD] rest st) :=
  claim_C5_adjacency_builder [chainT, chainD]
    [chainE1,
     { id := "e9", workflow_id := "w", source_node_id := "d",
       target_node_id := "missing" }]
    (by decide)

/-- C6: dispatching a node whose category is none of trigger, data,
transform, action is fatal: the walker turns it into a thrown error whose
message identifies the offending category (first conjunct, any node and
state); at the run level the walk halts at that node (the visit log stops
there; the downstream node is never visited), the run returns failure
with that message, and the accumulated context is discarded — neither
the returned outcome nor the persisted record carries a context
payload. -/
theorem claim_C6_unknown_category :
    (∀ (bad : Node) (adj : List (String × List String)) (nodes : List Node)
        (st : EngineState) (fuel : Nat),
      bad.node_type ∉ (["trigger", "data", "transform", "action"] : List String) →
      executeNode (fuel + 1) bad adj nodes st =
        .err ("Unknown node type: " ++ bad.node_type)
          { st with visitLog := st.visitLog ++ [bad.id] }) ∧
    (∀ (insertFails : Bool) (execId wfId : String) (wf : Workflow)
        (t bad after : Node) (e1 e2 : Edge) (fuel c0 : Nat),
      wf.enabled = true →
      t.node_type = "trigger" →
      bad.node_type ∉ (["trigger", "data", "transform", "action"] : List String) →
      e1.source_node_id = t.id → e1.target_node_id = bad.id →
      e2.source_node_id = bad.id → e2.target_node_id = after.id →
      t.id ≠ bad.id →
      ∃ M vt,
        buildAdjacencyMap [t, bad, after] [e1, e2] = .ok M ∧
        executeNode (fuel + 2) t M [t, bad, after]
            { executionData := [], clock := c0 + 1, visitLog := [] } =
          .err ("Unknown node type: " ++ bad.node_type)
            { executionData := [(t.id, vt)], clock := c0 + 2,
              visitLog := [t.id, bad.id] } ∧
        executeWorkflow insertFails execId wfId (some wf) [t, bad, after]
            [e1, e2] (fuel + 2) c0 =
          .ok { success := false, executionId := execId, executionData := none,
                error := some ("Unknown node type: " ++ bad.node_type) }
            (if insertFails then none
             else some { id := execId, workflow_id := wfId, status := "failed",
                         error_message :=
                           some ("Unknown node type: " ++ bad.node_type),
                         execution_data := none,
                         started_at := c0, ended_at := c0 + 2 })) := by
  constructor
  · intro bad adj nodes st fuel hbad
    exact executeNode_succ_err fuel bad adj nodes st _
      (dispatchNode_unknown bad _ _ hbad)
  · intro insertFails execId wfId wf t bad after e1 e2 fuel c0
      hwf ht hbad h1 h2 h3 h4 ne_tb
    obtain ⟨M, vt, hM, hrun⟩ :=
      unknown_type_walk t bad after e1 e2 fuel c0 ht hbad h1 h2 h3 h4 ne_tb
    have htrig : List.find? (fun n => n.node_type == "trigger") [t, bad, after] =
        some t := by
      simp [List.find?, ht]
    refine ⟨M, vt, hM, hrun, ?_⟩
    rw [executeWorkflow_walk insertFails execId wfId wf _ _ _ c0 t M hwf
      (by simp) htrig hM, hrun]
    rfl

/-- Witness for C6 with a concrete "webhook" node between a trigger and
an action node. -/
theorem claim_C6_unknown_category_witness :
    ∃ M vt,
      buildAdjacencyMap
        [chainT,
         { id := "b", workflow_id := "w", node_type := "webhook", label := "B",
           config := .obj [] },
         chainA]
        [{ id := "e1", workflow_id := "w", source_node_id := "t",
           target_node_id := "b" },
         { id := "e2", workflow_id := "w", source_node_id := "b",
           target_node_id := "a" }] = .ok M ∧
      executeNode (0 + 2) chainT M
          [chainT,
           { id := "b", workflow_id := "w", node_type := "webhook", label := "B",
             config := .obj [] },
           chainA]
          { executionData := [], clock := 0 + 1, visitLog := [] } =
        .err ("Unknown node type: " ++ "webhook")
          { executionData := [(chainT.id, vt)], clock := 0 + 2,
            visitLog := [chainT.id, "b"] } ∧
      executeWorkflow false "exec-6" "w" (some chainWf)
          [chainT,
           { id := "b", workflow_id := "w", node_type := "webhook", label := "B",
             config := .obj [] },
           chainA]
          [{ id := "e1", workflow_id := "w", source_node_id := "t",
             target_node_id := "b" },
           { id := "e2", workflow_id := "w", source_node_id := "b",
             target_node_id := "a" }] (0 + 2) 0 =
        .ok { success := false, executionId := "exec-6", executionData := none,
              error := some ("Unknown node type: " ++ "webhook") }
          (some { id := "exec-6", workflow_id := "w", status := "failed",
                  error_message := some ("Unknown node type: " ++ "webhook"),
                  execution_data := none,
                  started_at := 0, ended_at := 0 + 2 }) :=
  claim_C6_unknown_category.2 false "exec-6" "w" chainWf chainT
    { id := "b", workflow_id := "w", node_type := "webhook", label := "B",
      config := .obj [] }
    chainA
    { id := "e1", workflow_id := "w", source_node_id := "t",
      target_node_id := "b" }
    { id := "e2", workflow_id := "w", source_node_id := "b",
      target_node_id := "a" }
    0 0 rfl rfl (by decide) rfl rfl rfl rfl (by decide)

/-- C7 counterexample: the weather stub's payload field is named `temp`,
not `temperature` — the envelope's data payload has no `temperature`
key, refuting the claimed `{temperature, condition}` literal. -/
theorem claim_C7_counterexample :
    getField ((getField (executeDataNode chainD [] 0).1 "data").getD .null)
        "temperature" = none ∧
    getField ((getField (executeDataNode chainD [] 0).1 "data").getD .null)
        "temp" = some (.num 72) ∧
    getField ((getField (executeDataNode chainD [] 0).1 "data").getD .null)
        "condition" = some (.str "Sunny") :=
  ⟨rfl, rfl, rfl⟩

/-- C7 (amended): for every data node with `config.source = "weather"`,
the data handler returns — with no network collaborator in the model at
all — a success envelope whose payload is the stub literal
`{temp: 72, condition: "Sunny"}` (fixed literal values), stamped with
the current clock. -/
theorem claim_C7_weather_stub (node : Node) (ctx : List (String × Value))
    (clock : Nat)
    (h : getField node.config "source" = some (.str "weather")) :
    executeDataNode node ctx clock =
      (.obj [("type", .str "data"), ("source", .str "weather"),
             ("data", .obj [("temp", .num 72), ("condition", .str "Sunny")]),
             ("fetchedAt", .num clock)], clock + 1) := by
  unfold executeDataNode
  rw [h]
  rfl

/-- Witness for C7 (amended) on the concrete weather data node. -/
theorem claim_C7_weather_stub_witness :
    executeDataNode chainD [] 5 =
      (.obj [("type", .str "data"), ("source", .str "weather"),
             ("data", .obj [("temp", .num 72), ("condition", .str "Sunny")]),
             ("fetchedAt", .num 5)], 5 + 1) :=
  claim_C7_weather_stub chainD [] 5 rfl

lemma acyclicEdges_nil : AcyclicEdges [] := by
  intro u h
  cases h with
  | single hstep =>
      obtain ⟨e, he, -, -⟩ := hstep
      exact absurd he (List.not_mem_nil e)
  | tail _ hstep =>
      obtain ⟨e, he, -, -⟩ := hstep
      exact absurd he (List.not_mem_nil e)

/-- C8 counterexample: a cyclic edge set does not by itself cause
unbounded recursion — when the `x ↔ y` cycle is unreachable from the
trigger, the run still terminates successfully at stack bound 1. -/
theorem claim_C8_counterexample :
    (¬ AcyclicEdges cyc2Edges) ∧
    executeWorkflow false "exec-8c" "w" (some cycWf) cycNodes cyc2Edges 1 0 =
      .ok { success := true, executionId := "exec-8c",
            executionData := some [("t", (executeTrigger cycT 1).1)],
            error := none }
        (some { id := "exec-8c", workflow_id := "w", status := "completed",
                error_message := none,
                execution_data := some [("t", (executeTrigger cycT 1).1)],
                started_at := 0, ended_at := 2 }) := by
  constructor
  · intro hacyc
    refine hacyc "x" (Relation.TransGen.tail (b := "y")
      (Relation.TransGen.single ?_) ?_)
    · exact ⟨{ id := "e2", workflow_id := "w", source_node_id := "x",
               target_node_id := "y" }, by decide, rfl, rfl⟩
    · exact ⟨{ id := "e3", workflow_id := "w", source_node_id := "y",
               target_node_id := "x" }, by decide, rfl, rfl⟩
  · rfl

/-- C8 (amended): the walker performs no cycle detection. For every workflow whose
edge set is acyclic, the recursive traversal terminates: some finite fuel
(stack bound) completes without exhaustion, both for the walker itself
and for the whole run. On the concrete cyclic workflow (trigger→x, x→y,
y→x) the recursion exceeds every fuel bound: the walk and the run
diverge for all fuel — resource exhaustion is the only safeguard. A
cyclic edge set unreachable from the trigger terminates instead (see the
counterexample). -/
theorem claim_C8_no_cycle_detection :
    (∀ (nodes : List Node) (edges : List Edge)
        (M : List (String × List String)) (node : Node) (st : EngineState),
      buildAdjacencyMap nodes edges = .ok M → node ∈ nodes →
      AcyclicEdges edges →
      ∃ fuel, executeNode fuel node M nodes st ≠ .diverge) ∧
    (∀ (insertFails : Bool) (execId wfId : String) (wf? : Option Workflow)
        (nodes : List Node) (edges : List Edge) (c0 : Nat),
      AcyclicEdges edges →
      ∃ fuel, executeWorkflow insertFails execId wfId wf? nodes edges fuel c0 ≠
        .diverge) ∧
    (∀ fuel st, executeNode fuel cycT cycAdj cycNodes st = .diverge) ∧
    (∀ (insertFails : Bool) (execId wfId : String) (fuel c0 : Nat),
      executeWorkflow insertFails execId wfId (some cycWf) cycNodes cycEdges
        fuel c0 = .diverge) :=
  ⟨fun nodes edges M node st hM hmem hacyc =>
    ⟨(nodes.map Node.id).dedup.length + 1,
     executeNode_acyclic_no_diverge nodes edges M node st hM hmem hacyc⟩,
   fun insertFails execId wfId wf? nodes edges c0 hacyc =>
    executeWorkflow_acyclic_no_diverge insertFails execId wfId wf? nodes edges
      c0 hacyc,
   fun fuel st => cyc_walk_diverge fuel st,
   fun insertFails execId wfId fuel c0 =>
    cyc_run_diverge insertFails execId wfId fuel c0⟩

/-- Witness for C8: the acyclic branches applied to a one-node,
zero-edge workflow. -/
theorem claim_C8_no_cycle_detection_witness :
    (∃ fuel, executeNode fuel chainT [("t", [])] [chainT]
      { executionData := [], clock := 0, visitLog := [] } ≠ .diverge) ∧
    (∃ fuel, executeWorkflow false "exec-8" "w" (some chainWf) [chainT] []
      fuel 0 ≠ .diverge) :=
  ⟨claim_C8_no_cycle_detection.1 [chainT] [] [("t", [])] chainT
      { executionData := [], clock := 0, visitLog := [] } rfl
      (List.mem_singleton.mpr rfl) acyclicEdges_nil,
   claim_C8_no_cycle_detection.2.1 false "exec-8" "w" (some chainWf) [chainT]
      [] 0 acyclicEdges_nil⟩

/-- C9: a failure to persist the execution record is swallowed: the
caller-visible outcome is identical whether or not the insert fails
(only the persisted record is lost), and in particular a successful
traversal still reports success carrying its execution id and the full
execution context even when persistence failed. -/
theorem claim_C9_persistence_nonfatal (execId wfId : String)
    (wf? : Option Workflow) (nodes : List Node) (edges : List Edge)
    (fuel c0 : Nat) :
    runOutcome (executeWorkflow true execId wfId wf? nodes edges fuel c0) =
      runOutcome (executeWorkflow false execId wfId wf? nodes edges fuel c0) ∧
    runPersisted (executeWorkflow true execId wfId wf? nodes edges fuel c0) =
      none ∧
    (∀ (wf : Workflow) (trigger : Node) (M : List (String × List String))
        (st : EngineState),
      wf? = some wf → wf.enabled = true → nodes ≠ [] →
      nodes.find? (fun n => n.node_type == "trigger") = some trigger →
      buildAdjacencyMap nodes edges = .ok M →
      executeNode fuel trigger M nodes
        { executionData := [], clock := c0 + 1, visitLog := [] } = .ok st →
      executeWorkflow true execId wfId wf? nodes edges fuel c0 =
        .ok { success := true, executionId := execId,
              executionData := some st.executionData, error := none } none) := by
  refine ⟨?_, ?_, ?_⟩
  · rcases executeWorkflow_shape execId wfId wf? nodes edges fuel c0 with
      ⟨msg, endT, hall⟩ | ⟨st, hall⟩ | hall <;>
      rw [hall true, hall false] <;> rfl
  · rcases executeWorkflow_shape execId wfId wf? nodes edges fuel c0 with
      ⟨msg, endT, hall⟩ | ⟨st, hall⟩ | hall <;>
      rw [hall true] <;> rfl
  · intro wf trigger M st hwfq hwf hne htrig hadj hrun
    subst hwfq
    rw [executeWorkflow_walk true execId wfId wf nodes edges fuel c0 trigger M
      hwf hne htrig hadj, hrun]
    rfl

/-- Witness for C9 on a one-node workflow whose record insert fails. -/
theorem claim_C9_persistence_nonfatal_witness :
    executeWorkflow true "exec-9" "w" (some chainWf) [chainT] [] 1 0 =
      .ok { success := true, executionId := "exec-9",
            executionData :=
              some [("t", (executeTrigger chainT 1).1)],
            error := none } none :=
  (claim_C9_persistence_nonfatal "exec-9" "w" (some chainWf) [chainT] [] 1
      0).2.2 chainWf chainT [("t", [])]
    { executionData := [("t", (executeTrigger chainT 1).1)], clock := 2,
      visitLog := ["t"] }
    rfl rfl (by simp) rfl rfl rfl

/-- C10: a transform node whose `config.type` is not one of summarize,
filter, combine wraps the entire current execution context under a
`transformed` key; an action node whose `config.type` is not one of
email, sms, post yields an "Action not configured" message payload; in
both cases the handler succeeds, the walker stores the envelope under
the node's id, and traversal continues into the successors. -/
theorem claim_C10_default_subtypes :
    (∀ (node : Node) (ctx : List (String × Value)) (clock : Nat),
      getField node.config "type" ∉
        ([some (Value.str "summarize"), some (Value.str "filter"),
          some (Value.str "combine")] : List (Option Value)) →
      executeTransform node ctx clock =
        (.obj [("type", .str "transform"),
               ("transformType", (getField node.config "type").getD .null),
               ("result", .obj [("transformed", .obj ctx)]),
               ("transformedAt", .num clock)], clock + 1)) ∧
    (∀ (node : Node) (ctx : List (String × Value)) (clock : Nat),
      getField node.config "type" ∉
        ([some (Value.str "email"), some (Value.str "sms"),
          some (Value.str "post")] : List (Option Value)) →
      executeAction node ctx clock =
        (.obj [("type", .str "action"),
               ("actionType", (getField node.config "type").getD .null),
               ("result", .obj [("message", .str "Action not configured")]),
               ("actionTime", .num clock)], clock + 1)) ∧
    (∀ (node : Node) (adj : List (String × List String)) (nodes : List Node)
        (st : EngineState) (fuel : Nat),
      node.node_type = "transform" ∨ node.node_type = "action" →
      ∃ v, dispatchNode node st.executionData st.clock = .ok (v, st.clock + 1) ∧
        executeNode (fuel + 1) node adj nodes st =
          runSuccessors (fun n s => executeNode fuel n adj nodes s) nodes
            ((adj.lookup node.id).getD [])
            { executionData := setEntry st.executionData node.id v,
              clock := st.clock + 1, visitLog := st.visitLog ++ [node.id] }) := by
  refine ⟨?_, ?_, ?_⟩
  · intro node ctx clock h
    simp only [List.mem_cons, List.not_mem_nil, or_false, not_or] at h
    obtain ⟨h1, h2, h3⟩ := h
    unfold executeTransform
    dsimp only
    split
    · rename_i heq; exact absurd heq h1
    · rename_i heq; exact absurd heq h2
    · rename_i heq; exact absurd heq h3
    · rfl
  · intro node ctx clock h
    simp only [List.mem_cons, List.not_mem_nil, or_false, not_or] at h
    obtain ⟨h1, h2, h3⟩ := h
    unfold executeAction
    dsimp only
    split
    · rename_i heq; exact absurd heq h1
    · rename_i heq; exact absurd heq h2
    · rename_i heq; exact absurd heq h3
    · rfl
  · intro node adj nodes st fuel h
    have hmem : node.node_type ∈
        (["trigger", "data", "transform", "action"] : List String) := by
      rcases h with h | h <;> simp [h]
    obtain ⟨v, hv, -⟩ := dispatchNode_known node st.executionData st.clock hmem
    exact ⟨v, hv, executeNode_succ_ok fuel node adj nodes st v (st.clock + 1) hv⟩

/-- Witness for C10 on a transform node and an action node with the
unrecognized subtype "uppercase". -/
theorem claim_C10_default_subtypes_witness :
    (executeTransform
        { id := "x", workflow_id := "w", node_type := "transform", label := "X",
          config := .obj [("type", .str "uppercase")] } [] 4 =
      (.obj [("type", .str "transform"),
             ("transformType", .str "uppercase"),
             ("result", .obj [("transformed", .obj [])]),
             ("transformedAt", .num 4)], 4 + 1)) ∧
    (executeAction
        { id := "y", workflow_id := "w", node_type := "action", label := "Y",
          config := .obj [("type", .str "uppercase")] } [] 4 =
      (.obj [("type", .str "action"),
             ("actionType", .str "uppercase"),
             ("result", .obj [("message", .str "Action not configured")]),
             ("actionTime", .num 4)], 4 + 1)) ∧
    (∃ v, dispatchNode
        { id := "x", workflow_id := "w", node_type := "transform", label := "X",
          config := .obj [("type", .str "uppercase")] } [] 4 = .ok (v, 4 + 1) ∧
      executeNode (0 + 1)
          { id := "x", workflow_id := "w", node_type := "transform", label := "X",
            config := .obj [("type", .str "uppercase")] } [] []
          { executionData := [], clock := 4, visitLog := [] } =
        runSuccessors (fun n s => executeNode 0 n [] [] s) []
          ((([] : List (String × List String)).lookup "x").getD [])
          { executionData := setEntry [] "x" v, clock := 4 + 1,
            visitLog := [] ++ ["x"] }) :=
  ⟨claim_C10_default_subtypes.1
      { id := "x", workflow_id := "w", node_type := "transform", label := "X",
        config := .obj [("type", .str "uppercase")] } [] 4
      (by simp [getField, List.lookup]),
   claim_C10_default_subtypes.2.1
      { id := "y", workflow_id := "w", node_type := "action", label := "Y",
        config := .obj [("type", .str "uppercase")] } [] 4
      (by simp [getField, List.lookup]),
   claim_C10_default_subtypes.2.2
      { id := "x", workflow_id := "w", node_type := "transform", label := "X",
        config := .obj [("type", .str "uppercase")] } [] []
      { executionData := [], clock := 4, visitLog := [] } 0 (Or.inl rfl)⟩
